import Mathlib

/-!
Verification development for the DV360 MCP server repository.

The repository is a thin protocol adapter: a configuration/credential
resolver (`config.py`), a DV360 API client (`dv360_client.py`), a Bid
Manager API client (`bid_manager_client.py`), a full MCP server
(`src/dv360_mcp_server/server.py`) and a single-file server variant
(`dv360_server.py`).  This file shallowly embeds the Python code that the
checked properties are about:

* Python JSON-ish values are the inductive `Val`; `pyRepr`/`pyStr` mirror
  Python's `repr`/`str` on these values (string escaping inside `repr` is
  elided, which no checked property depends on).
* Remote calls through the generated Google API bindings are modelled by a
  `Service` record of uninterpreted functions returning `Except String Val`
  (`Except.error` is a raised exception carrying `str(e)`).  The lazily
  built service handle is an `Except String Service` (`Except.error` means
  building the handle raises, e.g. the backend is unreachable).
* Each Python coroutine becomes a function in the monad `M`, which combines
  exception propagation with an append-only log of the remote calls issued
  (the log lets theorems state that an operation issues no remote call, or
  exactly the listed ones).
-/

/-- Python values as they occur in this code base: `None`, booleans,
non-negative integers (only `len` counts appear), strings, lists and
string-keyed dicts (dicts are association lists in insertion order, as in
Python 3.7+). -/
inductive Val : Type where
  | none : Val
  | bool : Bool → Val
  | nat : Nat → Val
  | str : String → Val
  | list : List Val → Val
  | dict : List (String × Val) → Val

mutual

/-- Python `==` on the values of `Val` (structural equality; the embedded
code only ever compares like-typed values, where Python's `==` is
structural). -/
def Val.beq : Val → Val → Bool
  | Val.none, Val.none => true
  | Val.bool a, Val.bool b => a == b
  | Val.nat a, Val.nat b => a == b
  | Val.str a, Val.str b => a == b
  | Val.list a, Val.list b => Val.beqElems a b
  | Val.dict a, Val.dict b => Val.beqEntries a b
  | _, _ => false

/-- Elementwise `Val.beq` on lists. -/
def Val.beqElems : List Val → List Val → Bool
  | [], [] => true
  | x :: xs, y :: ys => Val.beq x y && Val.beqElems xs ys
  | _, _ => false

/-- Entrywise `Val.beq` on dicts. -/
def Val.beqEntries : List (String × Val) → List (String × Val) → Bool
  | [], [] => true
  | (k1, v1) :: xs, (k2, v2) :: ys => k1 == k2 && Val.beq v1 v2 && Val.beqEntries xs ys
  | _, _ => false

end

instance : BEq Val := ⟨Val.beq⟩

/-- Python truthiness (`bool(v)`) for the values of `Val`. -/
def pyTruthy : Val → Bool
  | Val.none => false
  | Val.bool b => b
  | Val.nat n => n != 0
  | Val.str s => !s.isEmpty
  | Val.list xs => !xs.isEmpty
  | Val.dict kvs => !kvs.isEmpty

mutual

/-- Python `repr` of a `Val` (string escaping elided). -/
def pyRepr : Val → String
  | Val.none => "None"
  | Val.bool b => if b then "True" else "False"
  | Val.nat n => toString n
  | Val.str s => "\x27" ++ s ++ "\x27"
  | Val.list xs => "[" ++ pyReprElems xs ++ "]"
  | Val.dict kvs => "\x7b" ++ pyReprEntries kvs ++ "\x7d"

/-- Comma-separated `repr`s of list elements. -/
def pyReprElems : List Val → String
  | [] => ""
  | [x] => pyRepr x
  | x :: y :: xs => pyRepr x ++ ", " ++ pyReprElems (y :: xs)

/-- Comma-separated `repr`s of dict entries. -/
def pyReprEntries : List (String × Val) → String
  | [] => ""
  | [(k, v)] => "\x27" ++ k ++ "\x27: " ++ pyRepr v
  | (k, v) :: e :: kvs => "\x27" ++ k ++ "\x27: " ++ pyRepr v ++ ", " ++ pyReprEntries (e :: kvs)

end

/-- Python `str` of a `Val`: bare text for strings, `repr` otherwise. -/
def pyStr : Val → String
  | Val.str s => s
  | v => pyRepr v

/-- First binding of key `k` in an association list (Python dict lookup;
the embedded dicts never repeat a key). -/
def pyLookup (kvs : List (String × Val)) (k : String) : Option Val :=
  match kvs with
  | [] => Option.none
  | (k2, v) :: rest => if k2 == k then Option.some v else pyLookup rest k

/-- Total dict access used in theorem statements: `d.get(k)` when `d` is a
dict, `None` otherwise (the embeddings themselves raise on non-dicts, see
`dictGetM`). -/
def pyGetTotal (v : Val) (k : String) : Val :=
  match v with
  | Val.dict kvs => (pyLookup kvs k).getD Val.none
  | _ => Val.none

/-- Python `d[k] = v` on an association list: replace the first binding in
place, or append a new one. -/
def setAssoc (kvs : List (String × Val)) (k : String) (v : Val) : List (String × Val) :=
  match kvs with
  | [] => [(k, v)]
  | (k2, v2) :: rest => if k2 == k then (k, v) :: rest else (k2, v2) :: setAssoc rest k v

/-- Substring containment, Python's `needle in hay` on strings. -/
def strIn (needle hay : String) : Bool :=
  go needle.data hay.data
where
  go (n : List Char) (h : List Char) : Bool :=
    if n.isPrefixOf h then true
    else
      match h with
      | [] => false
      | _ :: t => go n t

/-- Python `str.lower()` as a character-wise map (ASCII-faithful). -/
def pyLowerStr (s : String) : String := String.mk (s.data.map Char.toLower)

/-- Python `str.upper()` as a character-wise map (ASCII-faithful). -/
def pyUpperStr (s : String) : String := String.mk (s.data.map Char.toUpper)

/-- Right-justified decimal of width two, Python's `f"{n:2d}"` for `n ≥ 0`. -/
def pad2 (n : Nat) : String :=
  if n < 10 then " " ++ toString n else toString n

/-- The computation monad for the embedded coroutines: a state holding the
append-only log of issued remote calls, plus exception propagation.
`Except.error e` models a raised Python exception with `str(e) = e`. -/
def M (α : Type) : Type := List String → Except String α × List String

instance : Monad M where
  pure a := fun s => (Except.ok a, s)
  bind m f := fun s =>
    match m s with
    | (Except.ok a, s1) => f a s1
    | (Except.error e, s1) => (Except.error e, s1)

/-- Raise an exception whose `str` is `e`. -/
def mthrow {α : Type} (e : String) : M α := fun s => (Except.error e, s)

/-- Python `try: m except Exception as e: h (str e)`. -/
def tryCatchM {α : Type} (m : M α) (h : String → M α) : M α := fun s =>
  match m s with
  | (Except.error e, s1) => h e s1
  | r => r

/-- Run a computation with an empty remote-call log. -/
def runM {α : Type} (m : M α) : Except String α × List String := m []

theorem M.pure_eq {α : Type} (a : α) (s : List String) : (pure a : M α) s = (Except.ok a, s) :=
  rfl

theorem M.bind_ok {α β : Type} {m : M α} {f : α → M β} {s s1 : List String} {a : α}
    (h : m s = (Except.ok a, s1)) : (m >>= f) s = f a s1 := by
  show (match m s with
    | (Except.ok a, s1) => f a s1
    | (Except.error e, s1) => (Except.error e, s1)) = f a s1
  rw [h]

theorem M.bind_err {α β : Type} {m : M α} {f : α → M β} {s s1 : List String} {e : String}
    (h : m s = (Except.error e, s1)) : (m >>= f) s = (Except.error e, s1) := by
  show (match m s with
    | (Except.ok a, s1) => f a s1
    | (Except.error e, s1) => (Except.error e, s1)) = (Except.error e, s1)
  rw [h]

theorem tryCatchM.ok {α : Type} {m : M α} {h : String → M α} {s s1 : List String} {a : α}
    (hm : m s = (Except.ok a, s1)) : tryCatchM m h s = (Except.ok a, s1) := by
  unfold tryCatchM
  rw [hm]

theorem tryCatchM.err {α : Type} {m : M α} {h : String → M α} {s s1 : List String} {e : String}
    (hm : m s = (Except.error e, s1)) : tryCatchM m h s = h e s1 := by
  unfold tryCatchM
  rw [hm]

/-!
Embedding of `config.py`: the `Config` dataclass after `__post_init__`
(each credential field is the environment value, `Option.none` when the
variable is unset), its `validate` and its `get_credentials_type`.  The
filesystem is an uninterpreted predicate `fs` standing for
`os.path.exists`.
-/

/-- Credential-relevant fields of `Config` as loaded from the environment
(`os.getenv` yields `Option.none` for an unset variable). -/
structure Config where
  google_application_credentials : Option String
  oauth_client_id : Option String
  oauth_client_secret : Option String
  oauth_refresh_token : Option String

/-- Python truthiness of an optional environment string: unset and the
empty string are falsy. -/
def truthyEnv : Option String → Bool
  | Option.none => false
  | Option.some s => !s.isEmpty

/-- Embedding of `Config.get_credentials_type`. -/
def Config.get_credentials_type (c : Config) : String :=
  if truthyEnv c.google_application_credentials then "service_account"
  else if truthyEnv c.oauth_client_id then "oauth"
  else "none"

/-- Embedding of `Config.validate`; `fs` is `os.path.exists`. -/
def Config.validate (fs : String → Bool) (c : Config) : Bool :=
  if truthyEnv c.google_application_credentials then
    fs (c.google_application_credentials.getD "")
  else
    truthyEnv c.oauth_client_id && truthyEnv c.oauth_client_secret &&
      truthyEnv c.oauth_refresh_token

/-!
The remote boundary.  `Service` is the authenticated `displayvideo`
service handle: one uninterpreted function per API endpoint the client
code invokes, returning the parsed JSON response (`Except.ok`) or raising
(`Except.error`).  `BMService` is the `doubleclickbidmanager` handle.
Parameters typed `Val` are passed through from (dynamically typed) Python
call sites; `Option String` filters mirror the optional `filter=` keyword.
-/

structure Service where
  partners_list : Except String Val
  advertisers_list : Val → Except String Val
  campaigns_list : Val → Except String Val
  campaigns_get : Val → Val → Except String Val
  campaigns_create : Val → Val → Except String Val
  insertionOrders_list : Val → Option String → Except String Val
  insertionOrders_get : Val → Val → Except String Val
  lineItems_list : Val → Option String → Except String Val
  lineItems_get : Val → Val → Except String Val
  lineItems_patch : Val → Val → String → Val → Except String Val
  creatives_list : Val → Except String Val
  creatives_get : Val → Val → Except String Val
  audiences_list : Option Val → Except String Val
  audiences_get : Val → Val → Except String Val
  audiences_create : Val → Val → Except String Val
  queries_create : Val → Except String Val
  queries_get : Val → Except String Val
  queries_list : Except String Val
  queries_reports_list : Val → Except String Val

structure BMService where
  queries_get : Val → Except String Val
  queries_reports_list : Val → Except String Val

/-- Embedding of `_get_service`: the memoized handle either exists
(`Except.ok`) or its construction raises (`Except.error`), e.g. because the
backend is unreachable or credentials are invalid. -/
def getService {σ : Type} (svcp : Except String σ) : M σ :=
  fun s =>
    match svcp with
    | Except.ok svc => (Except.ok svc, s)
    | Except.error e => (Except.error e, s)

/-- Embedding of `_execute_request` for one prepared request: log the call,
then return the response or re-raise. -/
def callSvc (desc : String) (r : Except String Val) : M Val :=
  fun s =>
    match r with
    | Except.ok v => (Except.ok v, s ++ [desc])
    | Except.error e => (Except.error e, s ++ [desc])

/-- Python `v.get(k)` on a value expected to be a dict: `None` default,
`AttributeError` when `v` is not a dict. -/
def dictGetM (v : Val) (k : String) : M Val :=
  match v with
  | Val.dict kvs => pure ((pyLookup kvs k).getD Val.none)
  | _ => mthrow "AttributeError: get"

/-- Python `v.get(k, d)` with an explicit default. -/
def dictGetDM (v : Val) (k : String) (d : Val) : M Val :=
  match v with
  | Val.dict kvs => pure ((pyLookup kvs k).getD d)
  | _ => mthrow "AttributeError: get"

/-- Python `v[k]` on a value expected to be a dict: `KeyError` (whose `str`
is the quoted key) when the key is absent, `TypeError` when `v` is not a
dict. -/
def pyIndexM (v : Val) (k : String) : M Val :=
  match v with
  | Val.dict kvs =>
      match pyLookup kvs k with
      | Option.some x => pure x
      | Option.none => mthrow ("\x27" ++ k ++ "\x27")
  | _ => mthrow "TypeError: value is not subscriptable"

/-- Iterating a value expected to be a list (`for`/comprehension/`len`);
non-list iterables of this code base would raise earlier or yield nothing,
and are modelled as a `TypeError`. -/
def asListM (v : Val) : M (List Val) :=
  match v with
  | Val.list xs => pure xs
  | _ => mthrow "TypeError: value is not a list"

/-- Python `s.upper()` on a value expected to be a string. -/
def pyUpperM (v : Val) : M String :=
  match v with
  | Val.str s => pure (pyUpperStr s)
  | _ => mthrow "AttributeError: upper"

/-- Python `s.lower()` on a value expected to be a string. -/
def pyLowerM (v : Val) : M String :=
  match v with
  | Val.str s => pure (pyLowerStr s)
  | _ => mthrow "AttributeError: lower"

/-- Python `d[k] = v` on a value expected to be a dict. -/
def setItemM (d : Val) (k : String) (v : Val) : M Val :=
  match d with
  | Val.dict kvs => pure (Val.dict (setAssoc kvs k v))
  | _ => mthrow "TypeError: item assignment"

/-- Sequential list comprehension with a fallible predicate
(`[x for x in xs if p x]`): an exception in `p` propagates. -/
def pyFilterM (xs : List Val) (p : Val → M Bool) : M (List Val) :=
  match xs with
  | [] => pure []
  | x :: rest => do
      let keep ← p x
      let tail ← pyFilterM rest p
      pure (if keep then x :: tail else tail)

/-- Sequential `next((x for x in xs if p x), None)` with a fallible
predicate. -/
def pyFindM (xs : List Val) (p : Val → M Bool) : M (Option Val) :=
  match xs with
  | [] => pure Option.none
  | x :: rest => do
      let hit ← p x
      if hit then pure (Option.some x) else pyFindM rest p

/-!
Embedding of `dv360_client.py` (`DV360Client`).  Every coroutine takes the
memoized service handle `svcp` (built lazily by `_get_service`) and the
Python arguments as `Val`s, and returns the Python result as a `Val`
(lists stay `Val.list`).  Evaluation order, internal `try/except` blocks
and the defaults of `.get` calls follow the source.
-/

namespace DV360Client

/-- The partners phase of `DV360Client.list_advertisers`, run when no
truthy `partner_id` was passed: the partners listing is attempted inside
`try/except`; any failure there, an empty partners list, or an unusable
partners value signals early return of `[]` (`Sum.inl`); otherwise the
first partner's `partnerId` (possibly `None`) is the partner to use
(`Sum.inr`). -/
def discoverPartner (svc : Service) : M (Sum Unit Val) :=
  tryCatchM (do
      let resp ← callSvc "partners.list()" svc.partners_list
      let partners ← dictGetDM resp "partners" (Val.list [])
      match partners with
      | Val.list [] => pure (Sum.inl ())
      | Val.list (p :: _) => do
          let pid ← dictGetM p "partnerId"
          pure (Sum.inr pid)
      | _ => pure (Sum.inl ()))
    (fun _ => pure (Sum.inl ()))

/-- Embedding of `DV360Client.list_advertisers` (see `discoverPartner` for
the partners phase). -/
def list_advertisers (svcp : Except String Service) (partner_id : Val) : M Val := do
  let svc ← getService svcp
  let pid ←
    if pyTruthy partner_id then
      pure (Sum.inr partner_id)
    else
      discoverPartner svc
  match pid with
  | Sum.inl _ => pure (Val.list [])
  | Sum.inr pid => do
      let resp ← callSvc ("advertisers.list(partnerId=" ++ pyStr pid ++ ")")
        (svc.advertisers_list pid)
      dictGetDM resp "advertisers" (Val.list [])

/-- One `for advertiser in advertisers` round of `list_campaigns` /
`list_line_items`: index `advertiserId`, issue the per-advertiser listing
`call`, extend with the response's `key` entry. -/
def listPerAdvertiser (advs : List Val) (call : Val → M Val) (key : String) : M (List Val) :=
  match advs with
  | [] => pure []
  | a :: rest => do
      let aid ← pyIndexM a "advertiserId"
      let resp ← call aid
      let cs ← dictGetDM resp key (Val.list [])
      let csl ← asListM cs
      let tail ← listPerAdvertiser rest call key
      pure (csl ++ tail)

/-- Embedding of `DV360Client.list_campaigns`. -/
def list_campaigns (svcp : Except String Service) (advertiser_id : Val) : M Val := do
  let svc ← getService svcp
  let advertisers ←
    if pyTruthy advertiser_id then
      pure (Val.list [Val.dict [("advertiserId", advertiser_id)]])
    else
      list_advertisers svcp Val.none
  let advs ← asListM advertisers
  let campaigns ← listPerAdvertiser advs
    (fun aid => callSvc ("advertisers.campaigns.list(advertiserId=" ++ pyStr aid ++ ")")
      (svc.campaigns_list aid)) "campaigns"
  pure (Val.list campaigns)

/-- Embedding of `DV360Client.list_line_items`. -/
def list_line_items (svcp : Except String Service) (advertiser_id : Val) : M Val := do
  let svc ← getService svcp
  let advertisers ←
    if pyTruthy advertiser_id then
      pure (Val.list [Val.dict [("advertiserId", advertiser_id)]])
    else
      list_advertisers svcp Val.none
  let advs ← asListM advertisers
  let items ← listPerAdvertiser advs
    (fun aid => callSvc ("advertisers.lineItems.list(advertiserId=" ++ pyStr aid ++ ")")
      (svc.lineItems_list aid Option.none)) "lineItems"
  pure (Val.list items)

/-- Embedding of `DV360Client.list_audiences`. -/
def list_audiences (svcp : Except String Service) (advertiser_id : Val) : M Val := do
  let svc ← getService svcp
  let resp ←
    if pyTruthy advertiser_id then
      callSvc ("firstAndThirdPartyAudiences.list(advertiserId=" ++ pyStr advertiser_id ++ ")")
        (svc.audiences_list (Option.some advertiser_id))
    else
      callSvc "firstAndThirdPartyAudiences.list()" (svc.audiences_list Option.none)
  dictGetDM resp "firstAndThirdPartyAudiences" (Val.list [])

/-- Embedding of `DV360Client.list_reports`. -/
def list_reports (svcp : Except String Service) : M Val := do
  let svc ← getService svcp
  let resp ← callSvc "queries.list()" svc.queries_list
  dictGetDM resp "queries" (Val.list [])

/-- Embedding of `DV360Client.create_campaign`. -/
def create_campaign (svcp : Except String Service)
    (advertiser_id campaign_name campaign_goal : Val) : M Val := do
  let svc ← getService svcp
  let goal ← pyUpperM campaign_goal
  let body := Val.dict [
    ("displayName", campaign_name),
    ("campaignGoal", Val.dict [("campaignGoalType", Val.str goal)]),
    ("entityStatus", Val.str "ENTITY_STATUS_PAUSED")]
  callSvc ("advertisers.campaigns.create(advertiserId=" ++ pyStr advertiser_id ++ ")")
    (svc.campaigns_create advertiser_id body)

/-- Embedding of `DV360Client.update_line_item_targeting`: a placeholder
that touches the service handle and returns a fixed dict without issuing
any remote request. -/
def update_line_item_targeting (svcp : Except String Service)
    (line_item_id targeting_options : Val) : M Val := do
  let _ ← getService svcp
  pure (Val.dict [
    ("lineItemId", line_item_id),
    ("message", Val.str "Targeting update functionality to be implemented"),
    ("targetingOptions", targeting_options)])

/-- Embedding of `DV360Client.get_campaign_performance`. -/
def get_campaign_performance (svcp : Except String Service)
    (campaign_id date_range : Val) : M Val := do
  let svc ← getService svcp
  let dru ← pyUpperM date_range
  let query_body := Val.dict [
    ("metadata", Val.dict [
      ("title", Val.str ("Campaign Performance - " ++ pyStr campaign_id)),
      ("dataRange", Val.dict [("range", Val.str dru)]),
      ("format", Val.str "JSON")]),
    ("params", Val.dict [
      ("type", Val.str "STANDARD"),
      ("groupBys", Val.list [Val.str "FILTER_CAMPAIGN"]),
      ("filters", Val.list [Val.dict [("type", Val.str "FILTER_CAMPAIGN"), ("value", campaign_id)]]),
      ("metrics", Val.list [Val.str "METRIC_IMPRESSIONS", Val.str "METRIC_CLICKS",
        Val.str "METRIC_CTR", Val.str "METRIC_TOTAL_CONVERSIONS",
        Val.str "METRIC_REVENUE_ADVERTISER"])]),
    ("schedule", Val.dict [("frequency", Val.str "ONE_TIME")])]
  let qr ← callSvc "queries.create()" (svc.queries_create query_body)
  let qid ← dictGetM qr "queryId"
  pure (Val.dict [
    ("campaignId", campaign_id),
    ("dateRange", date_range),
    ("queryId", qid),
    ("status", Val.str "Report generation initiated")])

/-- Embedding of `DV360Client.pause_line_item`. -/
def pause_line_item (svcp : Except String Service) (line_item_id : Val) : M Val := do
  let s ←
    match line_item_id with
    | Val.str s => pure s
    | _ => mthrow "AttributeError: split"
  match s.splitOn "/" with
  | _ :: adv :: _ :: li :: _ => do
      let svc ← getService svcp
      let item ← callSvc ("advertisers.lineItems.get(advertiserId=" ++ adv ++
          ",lineItemId=" ++ li ++ ")") (svc.lineItems_get (Val.str adv) (Val.str li))
      let item2 ← setItemM item "entityStatus" (Val.str "ENTITY_STATUS_PAUSED")
      callSvc ("advertisers.lineItems.patch(advertiserId=" ++ adv ++
          ",lineItemId=" ++ li ++ ")") (svc.lineItems_patch (Val.str adv) (Val.str li)
          "entityStatus" item2)
  | _ => mthrow "Invalid line item ID format"

/-- Embedding of `DV360Client.create_audience_list`. -/
def create_audience_list (svcp : Except String Service)
    (advertiser_id audience_name audience_type : Val) : M Val := do
  let svc ← getService svcp
  let typ ← pyUpperM audience_type
  let body := Val.dict [
    ("displayName", audience_name),
    ("audienceType", Val.str typ),
    ("description", Val.str ("Audience list created via MCP server: " ++ pyStr audience_name))]
  callSvc ("firstAndThirdPartyAudiences.create(advertiserId=" ++ pyStr advertiser_id ++ ")")
    (svc.audiences_create advertiser_id body)

/-- Embedding of `DV360Client.get_campaign_details`. -/
def get_campaign_details (svcp : Except String Service)
    (advertiser_id campaign_id : Val) : M Val := do
  let svc ← getService svcp
  callSvc ("advertisers.campaigns.get(advertiserId=" ++ pyStr advertiser_id ++
      ",campaignId=" ++ pyStr campaign_id ++ ")")
    (svc.campaigns_get advertiser_id campaign_id)

/-- Embedding of `DV360Client.list_campaigns_for_advertiser`. -/
def list_campaigns_for_advertiser (svcp : Except String Service)
    (advertiser_id : Val) : M Val := do
  let svc ← getService svcp
  let resp ← callSvc ("advertisers.campaigns.list(advertiserId=" ++ pyStr advertiser_id ++ ")")
    (svc.campaigns_list advertiser_id)
  dictGetDM resp "campaigns" (Val.list [])

/-- The status test of `list_active_campaigns` (and of the
`active_campaigns` comprehension in `get_advertiser_summary`):
`c.get('entityStatus') == 'ENTITY_STATUS_ACTIVE'`. -/
def isActiveM (c : Val) : M Bool := do
  let st ← dictGetM c "entityStatus"
  pure (st == Val.str "ENTITY_STATUS_ACTIVE")

/-- Embedding of `DV360Client.list_active_campaigns`: fetch the full
unfiltered listing, then filter client-side. -/
def list_active_campaigns (svcp : Except String Service) (advertiser_id : Val) : M Val := do
  let cs ← list_campaigns_for_advertiser svcp advertiser_id
  let xs ← asListM cs
  let ys ← pyFilterM xs isActiveM
  pure (Val.list ys)

/-- The membership test of `search_campaigns`:
`search_lower in c.get('displayName', '').lower()`. -/
def searchPredM (sl : String) (c : Val) : M Bool := do
  let dn ← dictGetDM c "displayName" (Val.str "")
  let dl ← pyLowerM dn
  pure (strIn sl dl)

/-- Embedding of `DV360Client.search_campaigns`: fetch the full listing,
then keep the campaigns whose lower-cased display name contains the
lower-cased search term. -/
def search_campaigns (svcp : Except String Service)
    (advertiser_id search_term : Val) : M Val := do
  let cs ← list_campaigns_for_advertiser svcp advertiser_id
  let sl ← pyLowerM search_term
  let xs ← asListM cs
  let ys ← pyFilterM xs (searchPredM sl)
  pure (Val.list ys)

/-- Embedding of `DV360Client.list_insertion_orders`: a truthy
`campaign_id` adds a server-side `filter=campaignId="…"` expression. -/
def list_insertion_orders (svcp : Except String Service)
    (advertiser_id campaign_id : Val) : M Val := do
  let svc ← getService svcp
  let resp ←
    if pyTruthy campaign_id then
      callSvc ("advertisers.insertionOrders.list(advertiserId=" ++ pyStr advertiser_id ++
          ",filter=campaignId=\"" ++ pyStr campaign_id ++ "\")")
        (svc.insertionOrders_list advertiser_id
          (Option.some ("campaignId=\"" ++ pyStr campaign_id ++ "\"")))
    else
      callSvc ("advertisers.insertionOrders.list(advertiserId=" ++ pyStr advertiser_id ++ ")")
        (svc.insertionOrders_list advertiser_id Option.none)
  dictGetDM resp "insertionOrders" (Val.list [])

/-- Embedding of `DV360Client.get_insertion_order_details`. -/
def get_insertion_order_details (svcp : Except String Service)
    (advertiser_id insertion_order_id : Val) : M Val := do
  let svc ← getService svcp
  callSvc ("advertisers.insertionOrders.get(advertiserId=" ++ pyStr advertiser_id ++
      ",insertionOrderId=" ++ pyStr insertion_order_id ++ ")")
    (svc.insertionOrders_get advertiser_id insertion_order_id)

/-- Embedding of `DV360Client.list_line_items_for_io`: a truthy
`insertion_order_id` adds a server-side `filter=insertionOrderId="…"`. -/
def list_line_items_for_io (svcp : Except String Service)
    (advertiser_id insertion_order_id : Val) : M Val := do
  let svc ← getService svcp
  let resp ←
    if pyTruthy insertion_order_id then
      callSvc ("advertisers.lineItems.list(advertiserId=" ++ pyStr advertiser_id ++
          ",filter=insertionOrderId=\"" ++ pyStr insertion_order_id ++ "\")")
        (svc.lineItems_list advertiser_id
          (Option.some ("insertionOrderId=\"" ++ pyStr insertion_order_id ++ "\"")))
    else
      callSvc ("advertisers.lineItems.list(advertiserId=" ++ pyStr advertiser_id ++ ")")
        (svc.lineItems_list advertiser_id Option.none)
  dictGetDM resp "lineItems" (Val.list [])

/-- Embedding of `DV360Client.get_line_item_details`. -/
def get_line_item_details (svcp : Except String Service)
    (advertiser_id line_item_id : Val) : M Val := do
  let svc ← getService svcp
  callSvc ("advertisers.lineItems.get(advertiserId=" ++ pyStr advertiser_id ++
      ",lineItemId=" ++ pyStr line_item_id ++ ")")
    (svc.lineItems_get advertiser_id line_item_id)

/-- Embedding of `DV360Client.get_targeting_options`. -/
def get_targeting_options (svcp : Except String Service)
    (advertiser_id line_item_id : Val) : M Val := do
  let li ← get_line_item_details svcp advertiser_id line_item_id
  dictGetDM li "targetingExpansion" (Val.dict [])

/-- Embedding of `DV360Client.list_creatives`. -/
def list_creatives (svcp : Except String Service) (advertiser_id : Val) : M Val := do
  let svc ← getService svcp
  let resp ← callSvc ("advertisers.creatives.list(advertiserId=" ++ pyStr advertiser_id ++ ")")
    (svc.creatives_list advertiser_id)
  dictGetDM resp "creatives" (Val.list [])

/-- Embedding of `DV360Client.get_creative_details`. -/
def get_creative_details (svcp : Except String Service)
    (advertiser_id creative_id : Val) : M Val := do
  let svc ← getService svcp
  callSvc ("advertisers.creatives.get(advertiserId=" ++ pyStr advertiser_id ++
      ",creativeId=" ++ pyStr creative_id ++ ")")
    (svc.creatives_get advertiser_id creative_id)

/-- Embedding of `DV360Client.list_audiences_for_advertiser`. -/
def list_audiences_for_advertiser (svcp : Except String Service)
    (advertiser_id : Val) : M Val := do
  let svc ← getService svcp
  let resp ← callSvc ("firstAndThirdPartyAudiences.list(advertiserId=" ++
      pyStr advertiser_id ++ ")") (svc.audiences_list (Option.some advertiser_id))
  dictGetDM resp "firstAndThirdPartyAudiences" (Val.list [])

/-- Embedding of `DV360Client.get_audience_details`. -/
def get_audience_details (svcp : Except String Service)
    (advertiser_id audience_id : Val) : M Val := do
  let svc ← getService svcp
  callSvc ("firstAndThirdPartyAudiences.get(advertiserId=" ++ pyStr advertiser_id ++
      ",firstAndThirdPartyAudienceId=" ++ pyStr audience_id ++ ")")
    (svc.audiences_get advertiser_id audience_id)

/-- Embedding of `DV360Client.run_report_query`. -/
def run_report_query (svcp : Except String Service) (query_params : Val) : M Val := do
  let svc ← getService svcp
  callSvc "queries.create()" (svc.queries_create query_params)

/-- Embedding of `DV360Client.get_report_status`. -/
def get_report_status (svcp : Except String Service) (query_id : Val) : M Val := do
  let svc ← getService svcp
  callSvc ("queries.get(queryId=" ++ pyStr query_id ++ ")") (svc.queries_get query_id)

/-- Embedding of `DV360Client.download_report_data`. -/
def download_report_data (svcp : Except String Service) (query_id : Val) : M Val := do
  let svc ← getService svcp
  let resp ← callSvc ("queries.reports.list(queryId=" ++ pyStr query_id ++ ")")
    (svc.queries_reports_list query_id)
  dictGetDM resp "reports" (Val.list [])

/-- The generator condition and value of `list_saved_reports`:
`any(f.get('value') == advertiser_id for f in fs if f.get('type') ==
'FILTER_ADVERTISER')`, with Python's short-circuit evaluation order. -/
def anySavedFilterM (advertiser_id : Val) (fs : List Val) : M Bool :=
  match fs with
  | [] => pure false
  | f :: rest => do
      let t ← dictGetM f "type"
      if t == Val.str "FILTER_ADVERTISER" then
        let v ← dictGetM f "value"
        if v == advertiser_id then pure true else anySavedFilterM advertiser_id rest
      else
        anySavedFilterM advertiser_id rest

/-- Embedding of `DV360Client.list_saved_reports`. -/
def list_saved_reports (svcp : Except String Service) (advertiser_id : Val) : M Val := do
  let svc ← getService svcp
  let resp ← callSvc "queries.list()" svc.queries_list
  let queries ← dictGetDM resp "queries" (Val.list [])
  if pyTruthy advertiser_id then do
    let qs ← asListM queries
    let filtered ← pyFilterM qs (fun q => do
      let params ← dictGetDM q "params" (Val.dict [])
      let filters ← dictGetDM params "filters" (Val.list [])
      let fl ← asListM filters
      anySavedFilterM advertiser_id fl)
    pure (Val.list filtered)
  else
    pure queries

/-- The generator test of `get_advertiser_summary`'s advertiser lookup:
`a.get('advertiserId') == advertiser_id`. -/
def advMatchM (advertiser_id : Val) (a : Val) : M Bool := do
  let i ← dictGetM a "advertiserId"
  pure (i == advertiser_id)

/-- The fan-out-and-count part of `get_advertiser_summary`, run once the
advertiser record `adv` was found: campaigns listing, client-side active
filter over the same data, insertion orders, line items, creatives, then
the counts dict and the first five campaigns.  A failure in any of these
listings raises out of this function (aborting the summary). -/
def summaryFound (svcp : Except String Service) (advertiser_id adv : Val) : M Val := do
  let campaigns ← list_campaigns_for_advertiser svcp advertiser_id
  let campsL ← asListM campaigns
  let active ← pyFilterM campsL isActiveM
  let ios ← list_insertion_orders svcp advertiser_id Val.none
  let iosL ← asListM ios
  let lis ← list_line_items_for_io svcp advertiser_id Val.none
  let lisL ← asListM lis
  let cres ← list_creatives svcp advertiser_id
  let cresL ← asListM cres
  pure (Val.dict [
    ("advertiser", adv),
    ("summary", Val.dict [
      ("total_campaigns", Val.nat campsL.length),
      ("active_campaigns", Val.nat active.length),
      ("insertion_orders", Val.nat iosL.length),
      ("line_items", Val.nat lisL.length),
      ("creatives", Val.nat cresL.length)]),
    ("recent_campaigns", Val.list (campsL.take 5))])

/-- The `try` body of `DV360Client.get_advertiser_summary`.  The record is
taken from `next(..., None)` and then tested with `if not advertiser:` —
Python truthiness, not an is-None test — so a falsy found record (`None`
from the default, but also e.g. an empty dict in the listing) takes the
`Advertiser not found` path. -/
def summaryTry (svcp : Except String Service) (advertiser_id : Val) : M Val := do
  let advertisers ← list_advertisers svcp Val.none
  let advs ← asListM advertisers
  let found ← pyFindM advs (advMatchM advertiser_id)
  let advertiser := found.getD Val.none
  if !(pyTruthy advertiser) then
    pure (Val.dict [("error", Val.str "Advertiser not found")])
  else
    summaryFound svcp advertiser_id advertiser

/-- Embedding of `DV360Client.get_advertiser_summary`: the whole body runs
inside `try/except`, whose handler returns `{'error': str(e)}`. -/
def get_advertiser_summary (svcp : Except String Service) (advertiser_id : Val) : M Val :=
  tryCatchM (summaryTry svcp advertiser_id)
    (fun e => pure (Val.dict [("error", Val.str e)]))

/-- The report-query body built by
`DV360Client.get_campaign_performance_summary` (fixed metric set, one
advertiser filter and one campaign filter, one-time schedule). -/
def perfSummaryBody (advertiser_id campaign_id date_range : Val) : Val :=
  Val.dict [
    ("metadata", Val.dict [
      ("title", Val.str ("Performance Summary - " ++ pyStr campaign_id)),
      ("dataRange", Val.dict [("range", date_range)]),
      ("format", Val.str "JSON")]),
    ("params", Val.dict [
      ("type", Val.str "STANDARD"),
      ("groupBys", Val.list [Val.str "FILTER_CAMPAIGN"]),
      ("filters", Val.list [
        Val.dict [("type", Val.str "FILTER_ADVERTISER"), ("value", advertiser_id)],
        Val.dict [("type", Val.str "FILTER_CAMPAIGN"), ("value", campaign_id)]]),
      ("metrics", Val.list [Val.str "METRIC_IMPRESSIONS", Val.str "METRIC_CLICKS",
        Val.str "METRIC_CTR", Val.str "METRIC_TOTAL_CONVERSIONS",
        Val.str "METRIC_REVENUE_ADVERTISER", Val.str "METRIC_MEDIA_COST_ADVERTISER"])]),
    ("schedule", Val.dict [("frequency", Val.str "ONE_TIME")])]

/-- The `try` body of `DV360Client.get_campaign_performance_summary`. -/
def perfSummaryTry (svcp : Except String Service)
    (advertiser_id campaign_id date_range : Val) : M Val := do
  let campaign ← get_campaign_details svcp advertiser_id campaign_id
  let query_result ← run_report_query svcp
    (perfSummaryBody advertiser_id campaign_id date_range)
  let qid ← dictGetM query_result "queryId"
  pure (Val.dict [
    ("campaign", campaign),
    ("report_query_id", qid),
    ("status", Val.str "Report generation initiated"),
    ("date_range", date_range)])

/-- Embedding of `DV360Client.get_campaign_performance_summary`: fetch the
campaign, create the report query, and return its identifier immediately
(no polling, no sleep); the body runs inside `try/except` returning
`{'error': str(e)}` on failure. -/
def get_campaign_performance_summary (svcp : Except String Service)
    (advertiser_id campaign_id date_range : Val) : M Val :=
  tryCatchM (perfSummaryTry svcp advertiser_id campaign_id date_range)
    (fun e => pure (Val.dict [("error", Val.str e)]))

end DV360Client

/-!
Embedding of `bid_manager_client.py` (`BidManagerClient.get_report_data`,
the phase-two report retrieval).
-/

namespace BidManagerClient

/-- The `try` body of `BidManagerClient.get_report_data`: the query is
fetched, the generated reports are listed, and an empty (or falsy) reports
list yields the not-ready result (a `status` field, no `error` field). -/
def reportDataTry (svc : BMService) (query_id : Val) : M Val := do
  let query_info ← callSvc ("bidmanager.queries.get(queryId=" ++ pyStr query_id ++ ")")
    (svc.queries_get query_id)
  let resp ← callSvc ("bidmanager.queries.reports.list(queryId=" ++ pyStr query_id ++ ")")
    (svc.queries_reports_list query_id)
  let reports ← dictGetDM resp "reports" (Val.list [])
  if pyTruthy reports then do
    let latest ←
      match reports with
      | Val.list (r :: _) => pure r
      | _ => mthrow "TypeError: value is not subscriptable"
    let key ← dictGetDM latest "key" (Val.dict [])
    let rid ← dictGetM key "reportId"
    let md ← dictGetDM latest "metadata" (Val.dict [])
    let gcs ← dictGetM md "googleCloudStoragePath"
    pure (Val.dict [
      ("report_id", rid),
      ("query_id", query_id),
      ("status", Val.str "Report available"),
      ("metadata", md),
      ("google_cloud_storage_path", gcs),
      ("report_info", latest)])
  else do
    let qs ← dictGetDM query_info "metadata" (Val.dict [])
    pure (Val.dict [
      ("status", Val.str "No report data available yet"),
      ("query_status", qs)])

/-- Embedding of `BidManagerClient.get_report_data`: `_get_service` runs
before the `try/except`; any exception inside the `try` body yields
`{'error': str(e)}`. -/
def get_report_data (svcp : Except String BMService) (query_id : Val) : M Val := do
  let svc ← getService svcp
  tryCatchM (reportDataTry svc query_id)
    (fun e => pure (Val.dict [("error", Val.str e)]))

end BidManagerClient

/-!
Embedding of `src/dv360_mcp_server/server.py`: the static tool catalog
(names and required-argument lists from `handle_list_tools`), the tool
dispatcher `handle_call_tool`, and the resource reader
`handle_read_resource`.  The argument mapping is an association list; a
missing required key raises `KeyError`, whose `str` is the quoted key.
The eight real-performance/metadata tools are dispatched to attributes
that `DV360Client` does not define, so evaluating the callable raises
`AttributeError` before the arguments are even read.
-/

/-- An MCP argument mapping (shared by both `handle_call_tool`
variants). -/
def Args : Type := List (String × Val)

/-- Python `arguments[k]`: the value, or a raised `KeyError` whose `str`
is the quoted key. -/
def getArg (args : Args) (k : String) : M Val :=
  match pyLookup args k with
  | Option.some v => pure v
  | Option.none => mthrow ("\x27" ++ k ++ "\x27")

/-- Python `arguments.get(k)`: `None` when absent. -/
def getArgOpt (args : Args) (k : String) : Val :=
  (pyLookup args k).getD Val.none

/-- Python `arguments.get(k, d)`. -/
def getArgD (args : Args) (k : String) (d : Val) : Val :=
  (pyLookup args k).getD d

/-- Python `k in d` on a value expected to be a dict. -/
def hasKeyM (v : Val) (k : String) : M Bool :=
  match v with
  | Val.dict kvs => pure (pyLookup kvs k).isSome
  | _ => mthrow "TypeError: argument is not a container"

namespace FullServer

/-- `str(AttributeError)` raised when a missing method is looked up on the
`DV360Client` instance. -/
def attrErr (meth : String) : String :=
  "\x27DV360Client\x27 object has no attribute \x27" ++ meth ++ "\x27"

/-- The catalogued tool names, in the order of `handle_list_tools`. -/
def toolNames : List String := [
  "create_campaign", "update_line_item_targeting", "get_campaign_performance",
  "pause_line_item", "create_audience_list", "get_insertion_order_details",
  "get_line_item_details", "get_targeting_options", "get_campaign_performance_summary",
  "list_insertion_orders", "list_line_items_for_io", "list_creatives",
  "get_creative_details", "list_audiences_for_advertiser", "get_audience_details",
  "list_saved_reports", "get_advertiser_summary", "get_real_campaign_performance",
  "get_real_advertiser_performance", "get_real_line_item_performance",
  "create_custom_performance_report", "get_performance_report_data",
  "list_performance_queries", "get_available_performance_metrics",
  "get_available_date_ranges"]

/-- Required-argument lists declared by the tool schemas of
`handle_list_tools`, for the tools whose dispatch target exists on
`DV360Client` (the handler reads these `arguments[…]` in the same order). -/
def workingToolRequired : List (String × List String) := [
  ("create_campaign", ["advertiser_id", "campaign_name", "campaign_goal"]),
  ("update_line_item_targeting", ["line_item_id", "targeting_options"]),
  ("get_campaign_performance", ["campaign_id", "date_range"]),
  ("pause_line_item", ["line_item_id"]),
  ("create_audience_list", ["advertiser_id", "audience_name", "audience_type"]),
  ("get_insertion_order_details", ["advertiser_id", "insertion_order_id"]),
  ("get_line_item_details", ["advertiser_id", "line_item_id"]),
  ("get_targeting_options", ["advertiser_id", "line_item_id"]),
  ("get_campaign_performance_summary", ["advertiser_id", "campaign_id"]),
  ("list_insertion_orders", ["advertiser_id"]),
  ("list_line_items_for_io", ["advertiser_id"]),
  ("list_creatives", ["advertiser_id"]),
  ("get_creative_details", ["advertiser_id", "creative_id"]),
  ("list_audiences_for_advertiser", ["advertiser_id"]),
  ("get_audience_details", ["advertiser_id", "audience_id"]),
  ("list_saved_reports", []),
  ("get_advertiser_summary", ["advertiser_id"])]

/-- Required-argument lists of the eight tools whose dispatch target is a
missing `DV360Client` attribute. -/
def brokenToolRequired : List (String × List String) := [
  ("get_real_campaign_performance", ["advertiser_id", "campaign_id"]),
  ("get_real_advertiser_performance", ["advertiser_id"]),
  ("get_real_line_item_performance", ["advertiser_id", "line_item_id"]),
  ("create_custom_performance_report", ["advertiser_id"]),
  ("get_performance_report_data", ["query_id"]),
  ("list_performance_queries", []),
  ("get_available_performance_metrics", []),
  ("get_available_date_ranges", [])]

/-- The body of `handle_call_tool`'s `try` block: the `if/elif` chain over
tool names, each branch reading its arguments and delegating to the
`DV360Client` coroutine, the unknown name raising `ValueError`. -/
def dispatchComp (svcp : Except String Service) (name : String) (args : Args) : M Val :=
  if name == "create_campaign" then do
    let a ← getArg args "advertiser_id"
    let n ← getArg args "campaign_name"
    let g ← getArg args "campaign_goal"
    DV360Client.create_campaign svcp a n g
  else if name == "update_line_item_targeting" then do
    let li ← getArg args "line_item_id"
    let t ← getArg args "targeting_options"
    DV360Client.update_line_item_targeting svcp li t
  else if name == "get_campaign_performance" then do
    let c ← getArg args "campaign_id"
    let d ← getArg args "date_range"
    DV360Client.get_campaign_performance svcp c d
  else if name == "pause_line_item" then do
    let li ← getArg args "line_item_id"
    DV360Client.pause_line_item svcp li
  else if name == "create_audience_list" then do
    let a ← getArg args "advertiser_id"
    let n ← getArg args "audience_name"
    let t ← getArg args "audience_type"
    DV360Client.create_audience_list svcp a n t
  else if name == "get_insertion_order_details" then do
    let a ← getArg args "advertiser_id"
    let io2 ← getArg args "insertion_order_id"
    DV360Client.get_insertion_order_details svcp a io2
  else if name == "get_line_item_details" then do
    let a ← getArg args "advertiser_id"
    let li ← getArg args "line_item_id"
    DV360Client.get_line_item_details svcp a li
  else if name == "get_targeting_options" then do
    let a ← getArg args "advertiser_id"
    let li ← getArg args "line_item_id"
    DV360Client.get_targeting_options svcp a li
  else if name == "get_campaign_performance_summary" then do
    let dr := getArgD args "date_range" (Val.str "LAST_30_DAYS")
    let a ← getArg args "advertiser_id"
    let c ← getArg args "campaign_id"
    DV360Client.get_campaign_performance_summary svcp a c dr
  else if name == "list_insertion_orders" then do
    let c := getArgOpt args "campaign_id"
    let a ← getArg args "advertiser_id"
    DV360Client.list_insertion_orders svcp a c
  else if name == "list_line_items_for_io" then do
    let io2 := getArgOpt args "insertion_order_id"
    let a ← getArg args "advertiser_id"
    DV360Client.list_line_items_for_io svcp a io2
  else if name == "list_creatives" then do
    let a ← getArg args "advertiser_id"
    DV360Client.list_creatives svcp a
  else if name == "get_creative_details" then do
    let a ← getArg args "advertiser_id"
    let c ← getArg args "creative_id"
    DV360Client.get_creative_details svcp a c
  else if name == "list_audiences_for_advertiser" then do
    let a ← getArg args "advertiser_id"
    DV360Client.list_audiences_for_advertiser svcp a
  else if name == "get_audience_details" then do
    let a ← getArg args "advertiser_id"
    let au ← getArg args "audience_id"
    DV360Client.get_audience_details svcp a au
  else if name == "list_saved_reports" then do
    let a := getArgOpt args "advertiser_id"
    DV360Client.list_saved_reports svcp a
  else if name == "get_advertiser_summary" then do
    let a ← getArg args "advertiser_id"
    DV360Client.get_advertiser_summary svcp a
  else if name == "get_real_campaign_performance" then
    mthrow (attrErr "get_real_campaign_performance")
  else if name == "get_real_advertiser_performance" then
    mthrow (attrErr "get_real_advertiser_performance")
  else if name == "get_real_line_item_performance" then
    mthrow (attrErr "get_real_line_item_performance")
  else if name == "create_custom_performance_report" then
    mthrow (attrErr "create_custom_performance_report")
  else if name == "get_performance_report_data" then
    mthrow (attrErr "get_performance_report_data")
  else if name == "list_performance_queries" then
    mthrow (attrErr "list_performance_queries")
  else if name == "get_available_performance_metrics" then
    mthrow (attrErr "get_available_performance_metrics")
  else if name == "get_available_date_ranges" then
    mthrow (attrErr "get_available_date_ranges")
  else
    mthrow ("Unknown tool: " ++ name)

/-- Embedding of `handle_call_tool`: run the dispatch body under the
handler's `try/except`; a successful `result` is rendered as
`[TextContent(text=str(result))]`, an exception as
`[TextContent(text=f"Error: {str(e)}")]`.  The second component is the
log of remote calls issued. -/
def handle_call_tool (svcp : Except String Service) (name : String) (args : Args) :
    List String × List String :=
  match runM (dispatchComp svcp name args) with
  | (Except.ok v, log) => ([pyStr v], log)
  | (Except.error e, log) => (["Error: " ++ e], log)

/-- The catalogued resource URIs of `handle_list_resources`. -/
def resourceUris : List String := [
  "dv360://advertisers", "dv360://campaigns", "dv360://line-items",
  "dv360://audiences", "dv360://reports"]

/-- Embedding of `handle_read_resource`: the `try/except` logs and
re-raises, so exceptions (including the `ValueError` for an unknown URI)
propagate to the caller; a success is `str(data)`. -/
def handle_read_resource (svcp : Except String Service) (uri : String) : M String := do
  let data ←
    if uri == "dv360://advertisers" then DV360Client.list_advertisers svcp Val.none
    else if uri == "dv360://campaigns" then DV360Client.list_campaigns svcp Val.none
    else if uri == "dv360://line-items" then DV360Client.list_line_items svcp Val.none
    else if uri == "dv360://audiences" then DV360Client.list_audiences svcp Val.none
    else if uri == "dv360://reports" then DV360Client.list_reports svcp
    else mthrow ("Unknown resource URI: " ++ uri)
  pure (pyStr data)

end FullServer

/-!
Embedding of the single-file server `dv360_server.py`.  Its
`handle_call_tool` formats every outcome itself; each branch is split into
a fallible data part (`…Data`) and a total formatter (`…Fmt`) whose output
starts with the branch's status marker.  The marker constants below hold
the literal character sequences of the source file (the emoji there were
double-encoded at some point, so the file's bytes spell e.g. U+F8FF U+00FC
U+00EC U+00E4 where a chart emoji was intended; the embedding reproduces
the file's actual strings).
-/

namespace SingleServer

def mCheck : String := "‚úÖ"

def mCross : String := "‚ùå"

def mChart : String := "üìä"

def mChartUp : String := "üìà"

def mDart : String := "üéØ"

def mGreen : String := "üü¢"

def mSearch : String := "üîç"

def mClip : String := "üìã"

def mMemo : String := "üìù"

def mArt : String := "üé®"

def mPeople : String := "üë•"

def mBullet : String := "‚Ä¢"

def mInfo : String := "‚ÑπÔ∏è"

/-- The status markers that may open a result text of the single-file
server's `handle_call_tool`. -/
def statusMarkers : List String :=
  [mCheck, mCross, mChart, mChartUp, mDart, mGreen, mSearch, mClip, mMemo, mArt, mPeople]

/-- Monadic text fold over `enumerate(xs)` starting at index `i`. -/
def forIdxM (xs : List Val) (i : Nat) (f : Nat → Val → M String) : M String :=
  match xs with
  | [] => pure ""
  | x :: rest => do
      let line ← f i x
      let tail ← forIdxM rest (i + 1) f
      pure (line ++ tail)

/-- One line of the `list_advertisers` loop. -/
def advLine (i : Nat) (a : Val) : M String := do
  let n ← dictGetDM a "displayName" (Val.str "N/A")
  let idv ← dictGetDM a "advertiserId" (Val.str "N/A")
  let st ← dictGetDM a "entityStatus" (Val.str "N/A")
  pure (pad2 (i + 1) ++ ". " ++ pyStr n ++ " (ID: " ++ pyStr idv ++ ") - " ++ pyStr st ++ "\n")

/-- Fallible part of the `list_advertisers` branch. -/
def advertisersData (svcp : Except String Service) : M (Nat × String) := do
  let advs ← DV360Client.list_advertisers svcp Val.none
  let xs ← asListM advs
  let body ← forIdxM (xs.take 15) 0 advLine
  pure (xs.length, body)

/-- Formatter of the `list_advertisers` branch. -/
def advertisersFmt : Nat × String → String
  | (n, body) =>
    mCheck ++ " Found " ++ toString n ++ " advertisers in your DV360 account:\n\n" ++ body ++
      (if n > 15 then "\n... and " ++ toString (n - 15) ++ " more advertisers" else "") ++
      "\n" ++ mChart ++ " Total: " ++ toString n ++ " advertisers"

/-- One line of the recent-campaigns loop of `get_advertiser_summary`. -/
def recentCampLine (i : Nat) (c : Val) : M String := do
  let n ← dictGetDM c "displayName" (Val.str "N/A")
  let idv ← dictGetDM c "campaignId" (Val.str "N/A")
  pure (toString (i + 1) ++ ". " ++ pyStr n ++ " (ID: " ++ pyStr idv ++ ")\n")

/-- Fallible part of the `get_advertiser_summary` branch: either the
summary's error text (`Sum.inl`) or all pieces of the success text. -/
def advSummaryData (svcp : Except String Service) (args : Args) :
    M (Sum Val (Val × Val × Val × Val × Val × Val × Val × String)) := do
  let aidV ← getArg args "advertiser_id"
  let summary ← DV360Client.get_advertiser_summary svcp aidV
  let he ← hasKeyM summary "error"
  if he then do
    let ev ← pyIndexM summary "error"
    pure (Sum.inl ev)
  else do
    let adv ← pyIndexM summary "advertiser"
    let stats ← pyIndexM summary "summary"
    let dn ← dictGetDM adv "displayName" (Val.str "N/A")
    let tc ← pyIndexM stats "total_campaigns"
    let ac ← pyIndexM stats "active_campaigns"
    let ioN ← pyIndexM stats "insertion_orders"
    let liN ← pyIndexM stats "line_items"
    let cr ← pyIndexM stats "creatives"
    let rc ← pyIndexM summary "recent_campaigns"
    let rcsec ←
      if pyTruthy rc then do
        let rl ← asListM rc
        let body ← forIdxM (rl.take 5) 0 recentCampLine
        pure ("\n" ++ mDart ++ " **Recent Campaigns:**\n" ++ body)
      else
        pure ""
    pure (Sum.inr (dn, aidV, tc, ac, ioN, liN, cr, rcsec))

/-- Formatter of the `get_advertiser_summary` branch. -/
def advSummaryFmt : Sum Val (Val × Val × Val × Val × Val × Val × Val × String) → String
  | Sum.inl ev => mCross ++ " Error: " ++ pyStr ev
  | Sum.inr (dn, aidV, tc, ac, ioN, liN, cr, rcsec) =>
    mChart ++ " **" ++ pyStr dn ++ "** (ID: " ++ pyStr aidV ++ ")\n\n" ++
      mChartUp ++ " **Summary:**\n" ++
      mBullet ++ " Total Campaigns: " ++ pyStr tc ++ "\n" ++
      mBullet ++ " Active Campaigns: " ++ pyStr ac ++ "\n" ++
      mBullet ++ " Insertion Orders: " ++ pyStr ioN ++ "\n" ++
      mBullet ++ " Line Items: " ++ pyStr liN ++ "\n" ++
      mBullet ++ " Creatives: " ++ pyStr cr ++ "\n" ++ rcsec

/-- One line of the `list_campaigns` loop. -/
def campFullLine (i : Nat) (c : Val) : M String := do
  let n ← dictGetDM c "displayName" (Val.str "N/A")
  let idv ← dictGetDM c "campaignId" (Val.str "N/A")
  let st ← dictGetDM c "entityStatus" (Val.str "N/A")
  let goalD ← dictGetDM c "campaignGoal" (Val.dict [])
  let goal ← dictGetDM goalD "campaignGoalType" (Val.str "N/A")
  pure (pad2 (i + 1) ++ ". " ++ pyStr n ++ "\n    ID: " ++ pyStr idv ++ " | Status: " ++
    pyStr st ++ " | Goal: " ++ pyStr goal ++ "\n\n")

/-- Fallible part of the `list_campaigns` branch. -/
def campaignsData (svcp : Except String Service) (args : Args) : M (Val × Nat × String) := do
  let aidV ← getArg args "advertiser_id"
  let cs ← DV360Client.list_campaigns_for_advertiser svcp aidV
  let xs ← asListM cs
  let body ← forIdxM (xs.take 20) 0 campFullLine
  pure (aidV, xs.length, body)

/-- Formatter of the `list_campaigns` branch. -/
def campaignsFmt : Val × Nat × String → String
  | (aidV, n, body) =>
    mDart ++ " Found " ++ toString n ++ " campaigns for advertiser " ++ pyStr aidV ++
      ":\n\n" ++ body ++
      (if n > 20 then "... and " ++ toString (n - 20) ++ " more campaigns" else "")

/-- One line of the `list_active_campaigns` loop. -/
def activeCampLine (i : Nat) (c : Val) : M String := do
  let n ← dictGetDM c "displayName" (Val.str "N/A")
  let idv ← dictGetDM c "campaignId" (Val.str "N/A")
  let goalD ← dictGetDM c "campaignGoal" (Val.dict [])
  let goal ← dictGetDM goalD "campaignGoalType" (Val.str "N/A")
  pure (pad2 (i + 1) ++ ". " ++ pyStr n ++ "\n    ID: " ++ pyStr idv ++ " | Goal: " ++
    pyStr goal ++ "\n\n")

/-- Fallible part of the `list_active_campaigns` branch (no slice). -/
def activeCampaignsData (svcp : Except String Service) (args : Args) : M (Val × Nat × String) := do
  let aidV ← getArg args "advertiser_id"
  let cs ← DV360Client.list_active_campaigns svcp aidV
  let xs ← asListM cs
  let body ← forIdxM xs 0 activeCampLine
  pure (aidV, xs.length, body)

/-- Formatter of the `list_active_campaigns` branch. -/
def activeCampaignsFmt : Val × Nat × String → String
  | (aidV, n, body) =>
    mGreen ++ " Found " ++ toString n ++ " active campaigns for advertiser " ++
      pyStr aidV ++ ":\n\n" ++ body

/-- One line of the `search_campaigns` loop. -/
def searchCampLine (i : Nat) (c : Val) : M String := do
  let n ← dictGetDM c "displayName" (Val.str "N/A")
  let idv ← dictGetDM c "campaignId" (Val.str "N/A")
  let st ← dictGetDM c "entityStatus" (Val.str "N/A")
  pure (pad2 (i + 1) ++ ". " ++ pyStr n ++ "\n    ID: " ++ pyStr idv ++ " | Status: " ++
    pyStr st ++ "\n\n")

/-- Fallible part of the `search_campaigns` branch. -/
def searchData (svcp : Except String Service) (args : Args) : M (Val × Nat × String) := do
  let aidV ← getArg args "advertiser_id"
  let term ← getArg args "search_term"
  let cs ← DV360Client.search_campaigns svcp aidV term
  let xs ← asListM cs
  let body ← forIdxM xs 0 searchCampLine
  pure (term, xs.length, body)

/-- Formatter of the `search_campaigns` branch. -/
def searchFmt : Val × Nat × String → String
  | (term, n, body) =>
    mSearch ++ " Found " ++ toString n ++ " campaigns matching \x27" ++ pyStr term ++
      "\x27:\n\n" ++ body

/-- Fallible part of the `get_campaign_details` branch. -/
def campDetailsData (svcp : Except String Service) (args : Args) :
    M (Val × Val × Val × Val × Val) := do
  let aidV ← getArg args "advertiser_id"
  let cidV ← getArg args "campaign_id"
  let c ← DV360Client.get_campaign_details svcp aidV cidV
  let n ← dictGetDM c "displayName" (Val.str "N/A")
  let idv ← dictGetDM c "campaignId" (Val.str "N/A")
  let st ← dictGetDM c "entityStatus" (Val.str "N/A")
  let goalD ← dictGetDM c "campaignGoal" (Val.dict [])
  let goal ← dictGetDM goalD "campaignGoalType" (Val.str "N/A")
  let ut ← dictGetM c "updateTime"
  pure (n, idv, st, goal, ut)

/-- Formatter of the `get_campaign_details` branch. -/
def campDetailsFmt : Val × Val × Val × Val × Val → String
  | (n, idv, st, goal, ut) =>
    mDart ++ " **Campaign Details:**\n\n" ++
      "**Name:** " ++ pyStr n ++ "\n" ++
      "**ID:** " ++ pyStr idv ++ "\n" ++
      "**Status:** " ++ pyStr st ++ "\n" ++
      "**Goal:** " ++ pyStr goal ++ "\n" ++
      (if pyTruthy ut then "**Updated:** " ++ pyStr ut ++ "\n" else "")

/-- One line of the `list_insertion_orders` loop. -/
def ioLine (i : Nat) (io2 : Val) : M String := do
  let n ← dictGetDM io2 "displayName" (Val.str "N/A")
  let idv ← dictGetDM io2 "insertionOrderId" (Val.str "N/A")
  let st ← dictGetDM io2 "entityStatus" (Val.str "N/A")
  pure (pad2 (i + 1) ++ ". " ++ pyStr n ++ "\n    ID: " ++ pyStr idv ++ " | Status: " ++
    pyStr st ++ "\n\n")

/-- Fallible part of the `list_insertion_orders` branch. -/
def iosData (svcp : Except String Service) (args : Args) : M (Val × Nat × String) := do
  let aidV ← getArg args "advertiser_id"
  let cidV := getArgOpt args "campaign_id"
  let ios ← DV360Client.list_insertion_orders svcp aidV cidV
  let xs ← asListM ios
  let body ← forIdxM (xs.take 15) 0 ioLine
  pure (cidV, xs.length, body)

/-- Formatter of the `list_insertion_orders` branch. -/
def iosFmt : Val × Nat × String → String
  | (cidV, n, body) =>
    mClip ++ " Found " ++ toString n ++ " insertion orders" ++
      (if pyTruthy cidV then " for campaign " ++ pyStr cidV else "") ++ ":\n\n" ++ body ++
      (if n > 15 then "... and " ++ toString (n - 15) ++ " more insertion orders" else "")

/-- One line of the `list_line_items` loop. -/
def liLine (i : Nat) (li : Val) : M String := do
  let n ← dictGetDM li "displayName" (Val.str "N/A")
  let idv ← dictGetDM li "lineItemId" (Val.str "N/A")
  let st ← dictGetDM li "entityStatus" (Val.str "N/A")
  let ty ← dictGetDM li "lineItemType" (Val.str "N/A")
  pure (pad2 (i + 1) ++ ". " ++ pyStr n ++ "\n    ID: " ++ pyStr idv ++ " | Status: " ++
    pyStr st ++ " | Type: " ++ pyStr ty ++ "\n\n")

/-- Fallible part of the `list_line_items` branch. -/
def lisData (svcp : Except String Service) (args : Args) : M (Val × Nat × String) := do
  let aidV ← getArg args "advertiser_id"
  let ioV := getArgOpt args "insertion_order_id"
  let lis ← DV360Client.list_line_items_for_io svcp aidV ioV
  let xs ← asListM lis
  let body ← forIdxM (xs.take 15) 0 liLine
  pure (ioV, xs.length, body)

/-- Formatter of the `list_line_items` branch. -/
def lisFmt : Val × Nat × String → String
  | (ioV, n, body) =>
    mMemo ++ " Found " ++ toString n ++ " line items" ++
      (if pyTruthy ioV then " for insertion order " ++ pyStr ioV else "") ++ ":\n\n" ++ body ++
      (if n > 15 then "... and " ++ toString (n - 15) ++ " more line items" else "")

/-- One line of the `list_creatives` loop. -/
def creativeLine (i : Nat) (c : Val) : M String := do
  let n ← dictGetDM c "displayName" (Val.str "N/A")
  let idv ← dictGetDM c "creativeId" (Val.str "N/A")
  let st ← dictGetDM c "entityStatus" (Val.str "N/A")
  pure (pad2 (i + 1) ++ ". " ++ pyStr n ++ "\n    ID: " ++ pyStr idv ++ " | Status: " ++
    pyStr st ++ "\n\n")

/-- Fallible part of the `list_creatives` branch. -/
def creativesData (svcp : Except String Service) (args : Args) : M (Val × Nat × String) := do
  let aidV ← getArg args "advertiser_id"
  let crs ← DV360Client.list_creatives svcp aidV
  let xs ← asListM crs
  let body ← forIdxM (xs.take 15) 0 creativeLine
  pure (aidV, xs.length, body)

/-- Formatter of the `list_creatives` branch. -/
def creativesFmt : Val × Nat × String → String
  | (aidV, n, body) =>
    mArt ++ " Found " ++ toString n ++ " creatives for advertiser " ++ pyStr aidV ++
      ":\n\n" ++ body ++
      (if n > 15 then "... and " ++ toString (n - 15) ++ " more creatives" else "")

/-- One line of the `list_audiences` loop. -/
def audienceLine (i : Nat) (a : Val) : M String := do
  let n ← dictGetDM a "displayName" (Val.str "N/A")
  let idv ← dictGetDM a "firstAndThirdPartyAudienceId" (Val.str "N/A")
  let ty ← dictGetDM a "audienceType" (Val.str "N/A")
  let sz ← dictGetDM a "membershipDurationDays" (Val.str "N/A")
  pure (pad2 (i + 1) ++ ". " ++ pyStr n ++ "\n    ID: " ++ pyStr idv ++ " | Type: " ++
    pyStr ty ++ " | Duration: " ++ pyStr sz ++ " days\n\n")

/-- Fallible part of the `list_audiences` branch. -/
def audiencesData (svcp : Except String Service) (args : Args) : M (Val × Nat × String) := do
  let aidV ← getArg args "advertiser_id"
  let aus ← DV360Client.list_audiences_for_advertiser svcp aidV
  let xs ← asListM aus
  let body ← forIdxM (xs.take 15) 0 audienceLine
  pure (aidV, xs.length, body)

/-- Formatter of the `list_audiences` branch. -/
def audiencesFmt : Val × Nat × String → String
  | (aidV, n, body) =>
    mPeople ++ " Found " ++ toString n ++ " audiences for advertiser " ++ pyStr aidV ++
      ":\n\n" ++ body ++
      (if n > 15 then "... and " ++ toString (n - 15) ++ " more audiences" else "")

/-- Fallible part of the `get_campaign_performance_summary` branch. -/
def perfSummaryData (svcp : Except String Service) (args : Args) :
    M (Sum Val (Val × Val × Val × Val × Val)) := do
  let aidV ← getArg args "advertiser_id"
  let cidV ← getArg args "campaign_id"
  let drV := getArgD args "date_range" (Val.str "LAST_30_DAYS")
  let summary ← DV360Client.get_campaign_performance_summary svcp aidV cidV drV
  let he ← hasKeyM summary "error"
  if he then do
    let ev ← pyIndexM summary "error"
    pure (Sum.inl ev)
  else do
    let camp ← pyIndexM summary "campaign"
    let cn ← dictGetDM camp "displayName" (Val.str "N/A")
    let st ← pyIndexM summary "status"
    let qid ← pyIndexM summary "report_query_id"
    pure (Sum.inr (cn, cidV, drV, st, qid))

/-- Formatter of the `get_campaign_performance_summary` branch. -/
def perfSummaryFmt : Sum Val (Val × Val × Val × Val × Val) → String
  | Sum.inl ev => mCross ++ " Error: " ++ pyStr ev
  | Sum.inr (cn, cidV, drV, st, qid) =>
    mChartUp ++ " **Performance Summary: " ++ pyStr cn ++ "**\n\n" ++
      "**Campaign ID:** " ++ pyStr cidV ++ "\n" ++
      "**Date Range:** " ++ pyStr drV ++ "\n" ++
      "**Report Status:** " ++ pyStr st ++ "\n" ++
      "**Query ID:** " ++ pyStr qid ++ "\n\n" ++
      mInfo ++ " Report generation initiated. Use the query ID to check status and download data later."

/-- One line of the `list_saved_reports` loop. -/
def reportLine (i : Nat) (r : Val) : M String := do
  let md ← dictGetDM r "metadata" (Val.dict [])
  let title ← dictGetDM md "title" (Val.str "N/A")
  let idv ← dictGetDM r "queryId" (Val.str "N/A")
  let md2 ← dictGetDM r "metadata" (Val.dict [])
  let fmv ← dictGetDM md2 "format" (Val.str "N/A")
  pure (pad2 (i + 1) ++ ". " ++ pyStr title ++ "\n    ID: " ++ pyStr idv ++ " | Format: " ++
    pyStr fmv ++ "\n\n")

/-- Fallible part of the `list_saved_reports` branch. -/
def savedReportsData (svcp : Except String Service) (args : Args) : M (Val × Nat × String) := do
  let aidV := getArgOpt args "advertiser_id"
  let reports ← DV360Client.list_saved_reports svcp aidV
  let xs ← asListM reports
  let body ← forIdxM (xs.take 10) 0 reportLine
  pure (aidV, xs.length, body)

/-- Formatter of the `list_saved_reports` branch. -/
def savedReportsFmt : Val × Nat × String → String
  | (aidV, n, body) =>
    mChart ++ " Found " ++ toString n ++ " saved reports" ++
      (if pyTruthy aidV then " for advertiser " ++ pyStr aidV else "") ++ ":\n\n" ++ body ++
      (if n > 10 then "... and " ++ toString (n - 10) ++ " more reports" else "")

/-- The `try` body of the single-file `handle_call_tool`: the `if/elif`
chain over tool names; the unknown-tool case returns (not raises) a
cross-marked text. -/
def singleComp (svcp : Except String Service) (name : String) (args : Args) :
    M (List String) :=
  if name == "list_advertisers" then
    advertisersData svcp >>= fun d => pure [advertisersFmt d]
  else if name == "get_advertiser_summary" then
    advSummaryData svcp args >>= fun d => pure [advSummaryFmt d]
  else if name == "list_campaigns" then
    campaignsData svcp args >>= fun d => pure [campaignsFmt d]
  else if name == "list_active_campaigns" then
    activeCampaignsData svcp args >>= fun d => pure [activeCampaignsFmt d]
  else if name == "search_campaigns" then
    searchData svcp args >>= fun d => pure [searchFmt d]
  else if name == "get_campaign_details" then
    campDetailsData svcp args >>= fun d => pure [campDetailsFmt d]
  else if name == "list_insertion_orders" then
    iosData svcp args >>= fun d => pure [iosFmt d]
  else if name == "list_line_items" then
    lisData svcp args >>= fun d => pure [lisFmt d]
  else if name == "list_creatives" then
    creativesData svcp args >>= fun d => pure [creativesFmt d]
  else if name == "list_audiences" then
    audiencesData svcp args >>= fun d => pure [audiencesFmt d]
  else if name == "get_campaign_performance_summary" then
    perfSummaryData svcp args >>= fun d => pure [perfSummaryFmt d]
  else if name == "list_saved_reports" then
    savedReportsData svcp args >>= fun d => pure [savedReportsFmt d]
  else
    pure [mCross ++ " Unknown tool: " ++ name]

/-- Embedding of the single-file `handle_call_tool`: the `try/except`
around `singleComp` renders any exception as a cross-marked error text. -/
def handle_call_tool (svcp : Except String Service) (name : String) (args : Args) :
    List String × List String :=
  match runM (singleComp svcp name args) with
  | (Except.ok ts, log) => (ts, log)
  | (Except.error e, log) => ([mCross ++ " Error: " ++ e], log)

end SingleServer

/-!
The claims.  Each claim of the specification gets one theorem below
(plus, where needed, a closed witness or counterexample).
-/

/-- C2: for every environment snapshot the credential resolver returns
exactly one mode from `service_account` / `oauth` / `none`: service-account
whenever the credentials file path is set (truthy), regardless of the
oauth values; oauth when the file path is unset and the client id is set;
none otherwise.  `validate` is the file-existence test in service-account
mode, is true in oauth mode exactly when client id, client secret and
refresh token are all set, and is false in none mode. -/
theorem C2_credential_resolver (c : Config) (fs : String → Bool) :
    (c.get_credentials_type = "service_account" ∨ c.get_credentials_type = "oauth" ∨
      c.get_credentials_type = "none")
    ∧ (truthyEnv c.google_application_credentials = true →
        c.get_credentials_type = "service_account")
    ∧ (truthyEnv c.google_application_credentials = false →
        truthyEnv c.oauth_client_id = true → c.get_credentials_type = "oauth")
    ∧ (truthyEnv c.google_application_credentials = false →
        truthyEnv c.oauth_client_id = false → c.get_credentials_type = "none")
    ∧ (c.get_credentials_type = "service_account" →
        c.validate fs = fs (c.google_application_credentials.getD ""))
    ∧ (c.get_credentials_type = "oauth" →
        (c.validate fs = true ↔
          truthyEnv c.oauth_client_id = true ∧ truthyEnv c.oauth_client_secret = true ∧
            truthyEnv c.oauth_refresh_token = true))
    ∧ (c.get_credentials_type = "none" → c.validate fs = false) := by
  unfold Config.get_credentials_type Config.validate
  by_cases h1 : truthyEnv c.google_application_credentials <;>
    by_cases h2 : truthyEnv c.oauth_client_id <;>
      simp [h1, h2, Bool.and_eq_true]

/-- C3: in the full server, each of the eight real-performance/metadata
tools is dispatched to a method that `DV360Client` does not define, so for
every argument mapping and every remote-layer behaviour the call returns
the `AttributeError` text and the remote-call log stays empty (no remote
call is issued). -/
theorem C3_real_performance_tools_missing (svcp : Except String Service) (args : Args) :
    FullServer.handle_call_tool svcp "get_real_campaign_performance" args =
      (["Error: " ++ FullServer.attrErr "get_real_campaign_performance"], [])
    ∧ FullServer.handle_call_tool svcp "get_real_advertiser_performance" args =
      (["Error: " ++ FullServer.attrErr "get_real_advertiser_performance"], [])
    ∧ FullServer.handle_call_tool svcp "get_real_line_item_performance" args =
      (["Error: " ++ FullServer.attrErr "get_real_line_item_performance"], [])
    ∧ FullServer.handle_call_tool svcp "create_custom_performance_report" args =
      (["Error: " ++ FullServer.attrErr "create_custom_performance_report"], [])
    ∧ FullServer.handle_call_tool svcp "get_performance_report_data" args =
      (["Error: " ++ FullServer.attrErr "get_performance_report_data"], [])
    ∧ FullServer.handle_call_tool svcp "list_performance_queries" args =
      (["Error: " ++ FullServer.attrErr "list_performance_queries"], [])
    ∧ FullServer.handle_call_tool svcp "get_available_performance_metrics" args =
      (["Error: " ++ FullServer.attrErr "get_available_performance_metrics"], [])
    ∧ FullServer.handle_call_tool svcp "get_available_date_ranges" args =
      (["Error: " ++ FullServer.attrErr "get_available_date_ranges"], []) :=
  ⟨rfl, rfl, rfl, rfl, rfl, rfl, rfl, rfl⟩

/-!
Run lemmas: pointwise evaluation facts about the embedded coroutines,
used to settle the claims below.
-/

theorem getService_ok {σ : Type} (svc : σ) (s : List String) :
    getService (Except.ok svc) s = (Except.ok svc, s) := rfl

theorem getService_err {σ : Type} (e : String) (s : List String) :
    getService (σ := σ) (Except.error e) s = (Except.error e, s) := rfl

theorem callSvc_ok {r : Except String Val} {v : Val} (h : r = Except.ok v)
    (l : String) (s : List String) : callSvc l r s = (Except.ok v, s ++ [l]) := by
  unfold callSvc
  rw [h]

theorem callSvc_err {r : Except String Val} {e : String} (h : r = Except.error e)
    (l : String) (s : List String) : callSvc l r s = (Except.error e, s ++ [l]) := by
  unfold callSvc
  rw [h]

theorem dictGetM_dict (kvs : List (String × Val)) (k : String) (s : List String) :
    dictGetM (Val.dict kvs) k s = (Except.ok ((pyLookup kvs k).getD Val.none), s) := rfl

theorem dictGetDM_dict (kvs : List (String × Val)) (k : String) (d : Val) (s : List String) :
    dictGetDM (Val.dict kvs) k d s = (Except.ok ((pyLookup kvs k).getD d), s) := rfl

theorem asListM_list (xs : List Val) (s : List String) :
    asListM (Val.list xs) s = (Except.ok xs, s) := rfl

theorem run_get_campaign_details (svc : Service) {a c camp : Val}
    (h : svc.campaigns_get a c = Except.ok camp) (s : List String) :
    DV360Client.get_campaign_details (Except.ok svc) a c s =
      (Except.ok camp,
       s ++ ["advertisers.campaigns.get(advertiserId=" ++ pyStr a ++ ",campaignId=" ++
         pyStr c ++ ")"]) := by
  unfold DV360Client.get_campaign_details
  rw [M.bind_ok (getService_ok svc s)]
  exact callSvc_ok h _ s

theorem run_run_report_query (svc : Service) {body qres : Val}
    (h : svc.queries_create body = Except.ok qres) (s : List String) :
    DV360Client.run_report_query (Except.ok svc) body s =
      (Except.ok qres, s ++ ["queries.create()"]) := by
  unfold DV360Client.run_report_query
  rw [M.bind_ok (getService_ok svc s)]
  exact callSvc_ok h _ s

/-- C4: the report-query flow is two-phase.  Phase one
(`get_campaign_performance_summary`): when the campaign fetch and the
query creation succeed, the result carries the created query identifier
and the initiated status, and the remote-call log is exactly the campaign
fetch followed by the query creation — no report polling, no waiting.
Phase two (`get_report_data`): when the remote listing of generated
reports for a query identifier is empty, the result carries the not-ready
`status` field and no `error` field. -/
theorem C4_report_two_phase
    (svc : Service) (bsvc : BMService) (aidV cidV drV qidV camp : Val)
    (qkvs gkvs rkvs : List (String × Val))
    (h2 : svc.campaigns_get aidV cidV = Except.ok camp)
    (h3 : svc.queries_create (DV360Client.perfSummaryBody aidV cidV drV) =
      Except.ok (Val.dict qkvs))
    (b2 : bsvc.queries_get qidV = Except.ok (Val.dict gkvs))
    (b3 : bsvc.queries_reports_list qidV = Except.ok (Val.dict rkvs))
    (b5 : (pyLookup rkvs "reports").getD (Val.list []) = Val.list []) :
    runM (DV360Client.get_campaign_performance_summary (Except.ok svc) aidV cidV drV) =
      (Except.ok (Val.dict [
        ("campaign", camp),
        ("report_query_id", (pyLookup qkvs "queryId").getD Val.none),
        ("status", Val.str "Report generation initiated"),
        ("date_range", drV)]),
       ["advertisers.campaigns.get(advertiserId=" ++ pyStr aidV ++ ",campaignId=" ++
          pyStr cidV ++ ")",
        "queries.create()"])
    ∧ runM (BidManagerClient.get_report_data (Except.ok bsvc) qidV) =
      (Except.ok (Val.dict [
        ("status", Val.str "No report data available yet"),
        ("query_status", (pyLookup gkvs "metadata").getD (Val.dict []))]),
       ["bidmanager.queries.get(queryId=" ++ pyStr qidV ++ ")",
        "bidmanager.queries.reports.list(queryId=" ++ pyStr qidV ++ ")"])
    ∧ pyGetTotal (Val.dict [
        ("status", Val.str "No report data available yet"),
        ("query_status", (pyLookup gkvs "metadata").getD (Val.dict []))]) "error" = Val.none
    ∧ pyGetTotal (Val.dict [
        ("status", Val.str "No report data available yet"),
        ("query_status", (pyLookup gkvs "metadata").getD (Val.dict []))]) "status" =
        Val.str "No report data available yet" := by
  refine ⟨?_, ?_, rfl, rfl⟩
  · have hbody : DV360Client.perfSummaryTry (Except.ok svc) aidV cidV drV [] =
        (Except.ok (Val.dict [
          ("campaign", camp),
          ("report_query_id", (pyLookup qkvs "queryId").getD Val.none),
          ("status", Val.str "Report generation initiated"),
          ("date_range", drV)]),
         ["advertisers.campaigns.get(advertiserId=" ++ pyStr aidV ++ ",campaignId=" ++
            pyStr cidV ++ ")", "queries.create()"]) := by
      unfold DV360Client.perfSummaryTry
      rw [M.bind_ok (run_get_campaign_details svc h2 [])]
      rw [M.bind_ok (run_run_report_query svc h3 _)]
      rfl
    unfold DV360Client.get_campaign_performance_summary runM
    rw [tryCatchM.ok hbody]
  · have hbody : BidManagerClient.reportDataTry bsvc qidV [] =
        (Except.ok (Val.dict [
          ("status", Val.str "No report data available yet"),
          ("query_status", (pyLookup gkvs "metadata").getD (Val.dict []))]),
         ["bidmanager.queries.get(queryId=" ++ pyStr qidV ++ ")",
          "bidmanager.queries.reports.list(queryId=" ++ pyStr qidV ++ ")"]) := by
      unfold BidManagerClient.reportDataTry
      rw [M.bind_ok (callSvc_ok b2 _ [])]
      rw [M.bind_ok (callSvc_ok b3 _ _)]
      rw [M.bind_ok (dictGetDM_dict rkvs "reports" (Val.list []) _)]
      rw [b5]
      rfl
    unfold BidManagerClient.get_report_data runM
    rw [M.bind_ok (getService_ok bsvc [])]
    rw [tryCatchM.ok hbody]

/-- C4 witness: the two-phase property discharged at a concrete stub
service (campaign `{'campaignId': 'C1'}`, created query
`{'queryId': 'Q7'}`, empty reports listing). -/
theorem C4_report_two_phase_witness :
    runM (DV360Client.get_campaign_performance_summary
        (Except.ok (Service.mk (Except.ok (Val.dict []))
          (fun _ => Except.ok (Val.dict []))
          (fun _ => Except.ok (Val.dict []))
          (fun _ _ => Except.ok (Val.dict [("campaignId", Val.str "C1")]))
          (fun _ _ => Except.ok (Val.dict []))
          (fun _ _ => Except.ok (Val.dict []))
          (fun _ _ => Except.ok (Val.dict []))
          (fun _ _ => Except.ok (Val.dict []))
          (fun _ _ => Except.ok (Val.dict []))
          (fun _ _ _ _ => Except.ok (Val.dict []))
          (fun _ => Except.ok (Val.dict []))
          (fun _ _ => Except.ok (Val.dict []))
          (fun _ => Except.ok (Val.dict []))
          (fun _ _ => Except.ok (Val.dict []))
          (fun _ _ => Except.ok (Val.dict []))
          (fun _ => Except.ok (Val.dict [("queryId", Val.str "Q7")]))
          (fun _ => Except.ok (Val.dict []))
          (Except.ok (Val.dict []))
          (fun _ => Except.ok (Val.dict []))))
        (Val.str "A1") (Val.str "C1") (Val.str "LAST_30_DAYS")) =
      (Except.ok (Val.dict [
        ("campaign", Val.dict [("campaignId", Val.str "C1")]),
        ("report_query_id", Val.str "Q7"),
        ("status", Val.str "Report generation initiated"),
        ("date_range", Val.str "LAST_30_DAYS")]),
       ["advertisers.campaigns.get(advertiserId=A1,campaignId=C1)", "queries.create()"])
    ∧ runM (BidManagerClient.get_report_data
        (Except.ok (BMService.mk
          (fun _ => Except.ok (Val.dict [("metadata", Val.dict [("running", Val.bool true)])]))
          (fun _ => Except.ok (Val.dict [("reports", Val.list [])]))))
        (Val.str "Q7")) =
      (Except.ok (Val.dict [
        ("status", Val.str "No report data available yet"),
        ("query_status", Val.dict [("running", Val.bool true)])]),
       ["bidmanager.queries.get(queryId=Q7)", "bidmanager.queries.reports.list(queryId=Q7)"]) := by
  have h := C4_report_two_phase
    (Service.mk (Except.ok (Val.dict []))
      (fun _ => Except.ok (Val.dict []))
      (fun _ => Except.ok (Val.dict []))
      (fun _ _ => Except.ok (Val.dict [("campaignId", Val.str "C1")]))
      (fun _ _ => Except.ok (Val.dict []))
      (fun _ _ => Except.ok (Val.dict []))
      (fun _ _ => Except.ok (Val.dict []))
      (fun _ _ => Except.ok (Val.dict []))
      (fun _ _ => Except.ok (Val.dict []))
      (fun _ _ _ _ => Except.ok (Val.dict []))
      (fun _ => Except.ok (Val.dict []))
      (fun _ _ => Except.ok (Val.dict []))
      (fun _ => Except.ok (Val.dict []))
      (fun _ _ => Except.ok (Val.dict []))
      (fun _ _ => Except.ok (Val.dict []))
      (fun _ => Except.ok (Val.dict [("queryId", Val.str "Q7")]))
      (fun _ => Except.ok (Val.dict []))
      (Except.ok (Val.dict []))
      (fun _ => Except.ok (Val.dict [])))
    (BMService.mk
      (fun _ => Except.ok (Val.dict [("metadata", Val.dict [("running", Val.bool true)])]))
      (fun _ => Except.ok (Val.dict [("reports", Val.list [])])))
    (Val.str "A1") (Val.str "C1") (Val.str "LAST_30_DAYS") (Val.str "Q7")
    (Val.dict [("campaignId", Val.str "C1")])
    [("queryId", Val.str "Q7")]
    [("metadata", Val.dict [("running", Val.bool true)])]
    [("reports", Val.list [])]
    rfl rfl rfl rfl rfl
  exact ⟨h.1, h.2.1⟩

/-- A Python value that is a dict (a JSON object). -/
def IsDict (v : Val) : Prop := ∃ kvs, v = Val.dict kvs

/-- The active-campaign test as a pure predicate:
`c.get('entityStatus') == 'ENTITY_STATUS_ACTIVE'`. -/
def isActive (c : Val) : Bool :=
  pyGetTotal c "entityStatus" == Val.str "ENTITY_STATUS_ACTIVE"

theorem Val.beq_str_iff (v : Val) (t : String) :
    (v == Val.str t) = true ↔ v = Val.str t := by
  cases v <;> simp [BEq.beq, Val.beq]

theorem pyFilterM_pure {xs : List Val} {p : Val → M Bool} {q : Val → Bool}
    (h : ∀ x ∈ xs, ∀ s, p x s = (Except.ok (q x), s)) (s : List String) :
    pyFilterM xs p s = (Except.ok (xs.filter q), s) := by
  induction xs generalizing s with
  | nil => rfl
  | cons x rest ih =>
    unfold pyFilterM
    rw [M.bind_ok (h x (List.mem_cons_self x rest) s)]
    rw [M.bind_ok (ih (fun y hy s2 => h y (List.mem_cons_of_mem x hy) s2) s)]
    by_cases hq : q x <;> simp [List.filter_cons, hq, M.pure_eq]

theorem isActiveM_run {c : Val} (hc : IsDict c) (s : List String) :
    DV360Client.isActiveM c s = (Except.ok (isActive c), s) := by
  obtain ⟨kvs, rfl⟩ := hc
  rfl

theorem run_list_campaigns_for_advertiser (svc : Service) {a : Val}
    {ckvs : List (String × Val)}
    (h : svc.campaigns_list a = Except.ok (Val.dict ckvs)) (s : List String) :
    DV360Client.list_campaigns_for_advertiser (Except.ok svc) a s =
      (Except.ok ((pyLookup ckvs "campaigns").getD (Val.list [])),
       s ++ ["advertisers.campaigns.list(advertiserId=" ++ pyStr a ++ ")"]) := by
  unfold DV360Client.list_campaigns_for_advertiser
  rw [M.bind_ok (getService_ok svc s)]
  rw [M.bind_ok (callSvc_ok h _ s)]
  rfl

/-- C6: for every campaign listing `l` returned by the remote layer
(including the empty one, and with each entry a record),
`list_active_campaigns` returns exactly `l.filter isActive` — the
subsequence of entries whose status field equals `ENTITY_STATUS_ACTIVE`,
in input order (a filter is always a sublist) — and the only remote call
issued is the plain, unfiltered campaigns listing: the status filter runs
entirely client-side. -/
theorem C6_list_active_campaigns (svc : Service) (aidV : Val) (l : List Val)
    (ckvs : List (String × Val))
    (hresp : svc.campaigns_list aidV = Except.ok (Val.dict ckvs))
    (hl : (pyLookup ckvs "campaigns").getD (Val.list []) = Val.list l)
    (hdict : ∀ c ∈ l, IsDict c) :
    runM (DV360Client.list_active_campaigns (Except.ok svc) aidV) =
      (Except.ok (Val.list (l.filter isActive)),
       ["advertisers.campaigns.list(advertiserId=" ++ pyStr aidV ++ ")"])
    ∧ (l.filter isActive).Sublist l
    ∧ (∀ c ∈ l, (isActive c = true ↔
        pyGetTotal c "entityStatus" = Val.str "ENTITY_STATUS_ACTIVE")) := by
  refine ⟨?_, List.filter_sublist l, fun c _ => Val.beq_str_iff _ _⟩
  unfold DV360Client.list_active_campaigns runM
  rw [M.bind_ok (run_list_campaigns_for_advertiser svc hresp [])]
  rw [hl]
  rw [M.bind_ok (asListM_list l _)]
  rw [M.bind_ok (pyFilterM_pure (fun x hx s => isActiveM_run (hdict x hx) s) _)]
  rfl

/-- C6 witness: the active filter discharged at a concrete three-campaign
listing with one active campaign. -/
theorem C6_list_active_campaigns_witness :
    runM (DV360Client.list_active_campaigns
        (Except.ok (Service.mk (Except.ok (Val.dict []))
          (fun _ => Except.ok (Val.dict []))
          (fun _ => Except.ok (Val.dict [("campaigns", Val.list [
            Val.dict [("campaignId", Val.str "C1"),
              ("entityStatus", Val.str "ENTITY_STATUS_ACTIVE")],
            Val.dict [("campaignId", Val.str "C2"),
              ("entityStatus", Val.str "ENTITY_STATUS_PAUSED")],
            Val.dict [("campaignId", Val.str "C3")]])]))
          (fun _ _ => Except.ok (Val.dict []))
          (fun _ _ => Except.ok (Val.dict []))
          (fun _ _ => Except.ok (Val.dict []))
          (fun _ _ => Except.ok (Val.dict []))
          (fun _ _ => Except.ok (Val.dict []))
          (fun _ _ => Except.ok (Val.dict []))
          (fun _ _ _ _ => Except.ok (Val.dict []))
          (fun _ => Except.ok (Val.dict []))
          (fun _ _ => Except.ok (Val.dict []))
          (fun _ => Except.ok (Val.dict []))
          (fun _ _ => Except.ok (Val.dict []))
          (fun _ _ => Except.ok (Val.dict []))
          (fun _ => Except.ok (Val.dict []))
          (fun _ => Except.ok (Val.dict []))
          (Except.ok (Val.dict []))
          (fun _ => Except.ok (Val.dict []))))
        (Val.str "A1")) =
      (Except.ok (Val.list [Val.dict [("campaignId", Val.str "C1"),
        ("entityStatus", Val.str "ENTITY_STATUS_ACTIVE")]]),
       ["advertisers.campaigns.list(advertiserId=A1)"]) := by
  have h := C6_list_active_campaigns
    (Service.mk (Except.ok (Val.dict []))
      (fun _ => Except.ok (Val.dict []))
      (fun _ => Except.ok (Val.dict [("campaigns", Val.list [
        Val.dict [("campaignId", Val.str "C1"),
          ("entityStatus", Val.str "ENTITY_STATUS_ACTIVE")],
        Val.dict [("campaignId", Val.str "C2"),
          ("entityStatus", Val.str "ENTITY_STATUS_PAUSED")],
        Val.dict [("campaignId", Val.str "C3")]])]))
      (fun _ _ => Except.ok (Val.dict []))
      (fun _ _ => Except.ok (Val.dict []))
      (fun _ _ => Except.ok (Val.dict []))
      (fun _ _ => Except.ok (Val.dict []))
      (fun _ _ => Except.ok (Val.dict []))
      (fun _ _ => Except.ok (Val.dict []))
      (fun _ _ _ _ => Except.ok (Val.dict []))
      (fun _ => Except.ok (Val.dict []))
      (fun _ _ => Except.ok (Val.dict []))
      (fun _ => Except.ok (Val.dict []))
      (fun _ _ => Except.ok (Val.dict []))
      (fun _ _ => Except.ok (Val.dict []))
      (fun _ => Except.ok (Val.dict []))
      (fun _ => Except.ok (Val.dict []))
      (Except.ok (Val.dict []))
      (fun _ => Except.ok (Val.dict [])))
    (Val.str "A1")
    [Val.dict [("campaignId", Val.str "C1"), ("entityStatus", Val.str "ENTITY_STATUS_ACTIVE")],
     Val.dict [("campaignId", Val.str "C2"), ("entityStatus", Val.str "ENTITY_STATUS_PAUSED")],
     Val.dict [("campaignId", Val.str "C3")]]
    [("campaigns", Val.list [
      Val.dict [("campaignId", Val.str "C1"), ("entityStatus", Val.str "ENTITY_STATUS_ACTIVE")],
      Val.dict [("campaignId", Val.str "C2"), ("entityStatus", Val.str "ENTITY_STATUS_PAUSED")],
      Val.dict [("campaignId", Val.str "C3")]])]
    rfl rfl
    (by intro c hc
        fin_cases hc
        · exact ⟨_, rfl⟩
        · exact ⟨_, rfl⟩
        · exact ⟨_, rfl⟩)
  exact h.1

/-- Handy `Except.ok` empty dict for stub services. -/
def okd : Except String Val := Except.ok (Val.dict [])

/-- A stub `Service` for witnesses: the six interesting listings are
given, every other endpoint returns an empty dict. -/
def stubSvc (partners advertisers campaigns ios lis creatives : Except String Val) : Service :=
  Service.mk partners (fun _ => advertisers) (fun _ => campaigns) (fun _ _ => okd)
    (fun _ _ => okd) (fun _ _ => ios) (fun _ _ => okd) (fun _ _ => lis) (fun _ _ => okd)
    (fun _ _ _ _ => okd) (fun _ => creatives) (fun _ _ => okd) (fun _ => okd)
    (fun _ _ => okd) (fun _ _ => okd) (fun _ => okd) (fun _ => okd) okd (fun _ => okd)

/-- Python `c.get('displayName', '')` as a total function on records. -/
def displayNameD (c : Val) : Val :=
  match c with
  | Val.dict kvs => (pyLookup kvs "displayName").getD (Val.str "")
  | _ => Val.str ""

/-- The search test as a pure predicate: the lower-cased search term is a
substring of the lower-cased display name (an entry with no display name
counts as having the empty name). -/
def searchHit (sl : String) (c : Val) : Bool :=
  match displayNameD c with
  | Val.str d => strIn sl (pyLowerStr d)
  | _ => false

theorem pyLowerM_str (t : String) (s : List String) :
    pyLowerM (Val.str t) s = (Except.ok (pyLowerStr t), s) := rfl

theorem searchPredM_run {c : Val} (hc : IsDict c) {d : String}
    (hd : displayNameD c = Val.str d) (sl : String) (s : List String) :
    DV360Client.searchPredM sl c s = (Except.ok (searchHit sl c), s) := by
  obtain ⟨kvs, rfl⟩ := hc
  simp only [displayNameD] at hd
  unfold DV360Client.searchPredM
  rw [M.bind_ok (dictGetDM_dict kvs "displayName" (Val.str "") s)]
  rw [hd]
  simp only [searchHit, displayNameD, hd]
  rfl

/-- The three-campaign listing of the specification's search example. -/
def springCampaign1 : Val :=
  Val.dict [("campaignId", Val.str "C1"), ("displayName", Val.str "Spring Sale")]

def springCampaign2 : Val :=
  Val.dict [("campaignId", Val.str "C2"), ("displayName", Val.str "SPRING 2024")]

def springCampaign3 : Val :=
  Val.dict [("campaignId", Val.str "C3"), ("displayName", Val.str "Autumn")]

def springSvc : Service :=
  stubSvc okd okd
    (Except.ok (Val.dict [("campaigns",
      Val.list [springCampaign1, springCampaign2, springCampaign3])])) okd okd okd

/-- C7: for every campaign listing `l` returned by the remote layer and
every search term, `search_campaigns` returns exactly
`l.filter (searchHit (pyLowerStr term))` — the subsequence of entries whose
display name contains the term case-insensitively, entries with no
display name counting as empty-named — in input order, with the filter
running entirely client-side after one unfiltered listing call; in
particular, searching `spring` against `Spring Sale` / `SPRING 2024` /
`Autumn` returns exactly the first two. -/
theorem C7_search_campaigns (svc : Service) (aidV : Val) (term : String) (l : List Val)
    (ckvs : List (String × Val))
    (hresp : svc.campaigns_list aidV = Except.ok (Val.dict ckvs))
    (hl : (pyLookup ckvs "campaigns").getD (Val.list []) = Val.list l)
    (hdict : ∀ c ∈ l, IsDict c)
    (hname : ∀ c ∈ l, ∃ d, displayNameD c = Val.str d) :
    runM (DV360Client.search_campaigns (Except.ok svc) aidV (Val.str term)) =
      (Except.ok (Val.list (l.filter (searchHit (pyLowerStr term)))),
       ["advertisers.campaigns.list(advertiserId=" ++ pyStr aidV ++ ")"])
    ∧ (l.filter (searchHit (pyLowerStr term))).Sublist l
    ∧ (∀ c ∈ l, ∀ d, displayNameD c = Val.str d →
        (searchHit (pyLowerStr term) c = strIn (pyLowerStr term) (pyLowerStr d)))
    ∧ runM (DV360Client.search_campaigns (Except.ok springSvc) (Val.str "A1")
        (Val.str "spring")) =
      (Except.ok (Val.list [springCampaign1, springCampaign2]),
       ["advertisers.campaigns.list(advertiserId=A1)"]) := by
  refine ⟨?_, List.filter_sublist l, ?_, ?_⟩
  · unfold DV360Client.search_campaigns runM
    rw [M.bind_ok (run_list_campaigns_for_advertiser svc hresp [])]
    rw [hl]
    rw [M.bind_ok (pyLowerM_str term _)]
    rw [M.bind_ok (asListM_list l _)]
    rw [M.bind_ok (pyFilterM_pure (fun x hx s => by
      obtain ⟨d, hd⟩ := hname x hx
      exact searchPredM_run (hdict x hx) hd (pyLowerStr term) s) _)]
    rfl
  · intro c _ d hd
    simp [searchHit, hd]
  · rfl

/-- C7 witness: the search property discharged at the specification's
concrete example (search term `spring` against `Spring Sale`,
`SPRING 2024`, `Autumn`). -/
theorem C7_search_campaigns_witness :
    runM (DV360Client.search_campaigns (Except.ok springSvc) (Val.str "A1")
        (Val.str "spring")) =
      (Except.ok (Val.list [springCampaign1, springCampaign2]),
       ["advertisers.campaigns.list(advertiserId=A1)"]) := by
  have h := C7_search_campaigns springSvc (Val.str "A1") "spring"
    [springCampaign1, springCampaign2, springCampaign3]
    [("campaigns", Val.list [springCampaign1, springCampaign2, springCampaign3])]
    rfl rfl
    (by intro c hc
        fin_cases hc <;> exact ⟨_, rfl⟩)
    (by intro c hc
        fin_cases hc <;> exact ⟨_, rfl⟩)
  exact h.2.2.2

theorem pyFindM_pure {xs : List Val} {p : Val → M Bool} {q : Val → Bool}
    (h : ∀ x ∈ xs, ∀ s, p x s = (Except.ok (q x), s)) (s : List String) :
    pyFindM xs p s = (Except.ok (xs.find? q), s) := by
  induction xs generalizing s with
  | nil => rfl
  | cons x rest ih =>
    unfold pyFindM
    rw [M.bind_ok (h x (List.mem_cons_self x rest) s)]
    by_cases hq : q x
    · simp [hq, List.find?_cons_of_pos, M.pure_eq]
    · have hqf : q x = false := by simpa using hq
      rw [show List.find? q (x :: rest) = List.find? q rest by
        rw [List.find?_cons]
        simp [hqf]]
      simp only [hqf, Bool.false_eq_true, if_false]
      exact ih (fun y hy s2 => h y (List.mem_cons_of_mem x hy) s2) s

/-- The advertiser-lookup test as a pure predicate:
`a.get('advertiserId') == advertiser_id`. -/
def advMatches (advertiser_id a : Val) : Bool :=
  pyGetTotal a "advertiserId" == advertiser_id

theorem advMatchM_run (advertiser_id : Val) {a : Val} (hc : IsDict a) (s : List String) :
    DV360Client.advMatchM advertiser_id a s =
      (Except.ok (advMatches advertiser_id a), s) := by
  obtain ⟨kvs, rfl⟩ := hc
  rfl

theorem run_discoverPartner (svc : Service) {p0kvs : List (String × Val)} {prest : List Val}
    {pid : Val}
    (hp : svc.partners_list =
      Except.ok (Val.dict [("partners", Val.list (Val.dict p0kvs :: prest))]))
    (hpid : (pyLookup p0kvs "partnerId").getD Val.none = pid) (s : List String) :
    DV360Client.discoverPartner svc s =
      (Except.ok (Sum.inr pid), s ++ ["partners.list()"]) := by
  unfold DV360Client.discoverPartner
  refine tryCatchM.ok ?_
  rw [M.bind_ok (callSvc_ok hp _ s)]
  rw [← hpid]
  rfl

/-- The advertisers phase of `list_advertisers` once the partner id is
known. -/
theorem run_advPhase (svc : Service) {pid : Val} {advs : List Val}
    (ha : svc.advertisers_list pid = Except.ok (Val.dict [("advertisers", Val.list advs)]))
    (s : List String) :
    (callSvc ("advertisers.list(partnerId=" ++ pyStr pid ++ ")")
        (svc.advertisers_list pid) >>= fun resp =>
          dictGetDM resp "advertisers" (Val.list [])) s =
      (Except.ok (Val.list advs),
       s ++ ["advertisers.list(partnerId=" ++ pyStr pid ++ ")"]) := by
  rw [M.bind_ok (callSvc_ok ha _ s)]
  rfl

theorem run_list_advertisers (svc : Service) {p0kvs : List (String × Val)}
    {prest advs : List Val} {pid : Val}
    (hp : svc.partners_list =
      Except.ok (Val.dict [("partners", Val.list (Val.dict p0kvs :: prest))]))
    (hpid : (pyLookup p0kvs "partnerId").getD Val.none = pid)
    (ha : svc.advertisers_list pid = Except.ok (Val.dict [("advertisers", Val.list advs)]))
    (s : List String) :
    DV360Client.list_advertisers (Except.ok svc) Val.none s =
      (Except.ok (Val.list advs),
       s ++ ["partners.list()", "advertisers.list(partnerId=" ++ pyStr pid ++ ")"]) := by
  refine Eq.trans (M.bind_ok (getService_ok svc s)) ?_
  refine Eq.trans (M.bind_ok (run_discoverPartner svc hp hpid s)) ?_
  have h2 := run_advPhase svc ha (s ++ ["partners.list()"])
  rw [List.append_assoc] at h2
  exact h2

theorem run_list_campaigns_for_advertiser2 (svc : Service) {a : Val} {camps : List Val}
    (h : svc.campaigns_list a = Except.ok (Val.dict [("campaigns", Val.list camps)]))
    (s : List String) :
    DV360Client.list_campaigns_for_advertiser (Except.ok svc) a s =
      (Except.ok (Val.list camps),
       s ++ ["advertisers.campaigns.list(advertiserId=" ++ pyStr a ++ ")"]) :=
  run_list_campaigns_for_advertiser svc h s

theorem err_list_campaigns_for_advertiser (svc : Service) {a : Val} {e : String}
    (h : svc.campaigns_list a = Except.error e) (s : List String) :
    DV360Client.list_campaigns_for_advertiser (Except.ok svc) a s =
      (Except.error e,
       s ++ ["advertisers.campaigns.list(advertiserId=" ++ pyStr a ++ ")"]) := by
  unfold DV360Client.list_campaigns_for_advertiser
  rw [M.bind_ok (getService_ok svc s)]
  exact M.bind_err (callSvc_err h _ s)

theorem run_list_insertion_orders_none (svc : Service) {a : Val} {ios : List Val}
    (h : svc.insertionOrders_list a Option.none =
      Except.ok (Val.dict [("insertionOrders", Val.list ios)])) (s : List String) :
    DV360Client.list_insertion_orders (Except.ok svc) a Val.none s =
      (Except.ok (Val.list ios),
       s ++ ["advertisers.insertionOrders.list(advertiserId=" ++ pyStr a ++ ")"]) := by
  refine Eq.trans (M.bind_ok (getService_ok svc s)) ?_
  refine Eq.trans (M.bind_ok (callSvc_ok h _ s)) ?_
  rfl

theorem err_list_insertion_orders_none (svc : Service) {a : Val} {e : String}
    (h : svc.insertionOrders_list a Option.none = Except.error e) (s : List String) :
    DV360Client.list_insertion_orders (Except.ok svc) a Val.none s =
      (Except.error e,
       s ++ ["advertisers.insertionOrders.list(advertiserId=" ++ pyStr a ++ ")"]) := by
  refine Eq.trans (M.bind_ok (getService_ok svc s)) ?_
  exact M.bind_err (callSvc_err h _ s)

theorem run_list_line_items_for_io_none (svc : Service) {a : Val} {lis : List Val}
    (h : svc.lineItems_list a Option.none =
      Except.ok (Val.dict [("lineItems", Val.list lis)])) (s : List String) :
    DV360Client.list_line_items_for_io (Except.ok svc) a Val.none s =
      (Except.ok (Val.list lis),
       s ++ ["advertisers.lineItems.list(advertiserId=" ++ pyStr a ++ ")"]) := by
  refine Eq.trans (M.bind_ok (getService_ok svc s)) ?_
  refine Eq.trans (M.bind_ok (callSvc_ok h _ s)) ?_
  rfl

theorem err_list_line_items_for_io_none (svc : Service) {a : Val} {e : String}
    (h : svc.lineItems_list a Option.none = Except.error e) (s : List String) :
    DV360Client.list_line_items_for_io (Except.ok svc) a Val.none s =
      (Except.error e,
       s ++ ["advertisers.lineItems.list(advertiserId=" ++ pyStr a ++ ")"]) := by
  refine Eq.trans (M.bind_ok (getService_ok svc s)) ?_
  exact M.bind_err (callSvc_err h _ s)

theorem run_list_creatives (svc : Service) {a : Val} {crs : List Val}
    (h : svc.creatives_list a = Except.ok (Val.dict [("creatives", Val.list crs)]))
    (s : List String) :
    DV360Client.list_creatives (Except.ok svc) a s =
      (Except.ok (Val.list crs),
       s ++ ["advertisers.creatives.list(advertiserId=" ++ pyStr a ++ ")"]) := by
  unfold DV360Client.list_creatives
  rw [M.bind_ok (getService_ok svc s)]
  rw [M.bind_ok (callSvc_ok h _ s)]
  rfl

theorem err_list_creatives (svc : Service) {a : Val} {e : String}
    (h : svc.creatives_list a = Except.error e) (s : List String) :
    DV360Client.list_creatives (Except.ok svc) a s =
      (Except.error e,
       s ++ ["advertisers.creatives.list(advertiserId=" ++ pyStr a ++ ")"]) := by
  unfold DV360Client.list_creatives
  rw [M.bind_ok (getService_ok svc s)]
  exact M.bind_err (callSvc_err h _ s)

theorem run_summaryFound (svc : Service) {aidV adv : Val} {camps ios lis crs : List Val}
    (hc : svc.campaigns_list aidV = Except.ok (Val.dict [("campaigns", Val.list camps)]))
    (hcdict : ∀ c ∈ camps, IsDict c)
    (hio : svc.insertionOrders_list aidV Option.none =
      Except.ok (Val.dict [("insertionOrders", Val.list ios)]))
    (hli : svc.lineItems_list aidV Option.none =
      Except.ok (Val.dict [("lineItems", Val.list lis)]))
    (hcr : svc.creatives_list aidV = Except.ok (Val.dict [("creatives", Val.list crs)]))
    (s : List String) :
    DV360Client.summaryFound (Except.ok svc) aidV adv s =
      (Except.ok (Val.dict [
        ("advertiser", adv),
        ("summary", Val.dict [
          ("total_campaigns", Val.nat camps.length),
          ("active_campaigns", Val.nat (camps.filter isActive).length),
          ("insertion_orders", Val.nat ios.length),
          ("line_items", Val.nat lis.length),
          ("creatives", Val.nat crs.length)]),
        ("recent_campaigns", Val.list (camps.take 5))]),
       s ++ ["advertisers.campaigns.list(advertiserId=" ++ pyStr aidV ++ ")",
         "advertisers.insertionOrders.list(advertiserId=" ++ pyStr aidV ++ ")",
         "advertisers.lineItems.list(advertiserId=" ++ pyStr aidV ++ ")",
         "advertisers.creatives.list(advertiserId=" ++ pyStr aidV ++ ")"]) := by
  unfold DV360Client.summaryFound
  refine Eq.trans (M.bind_ok (run_list_campaigns_for_advertiser2 svc hc s)) ?_
  refine Eq.trans (M.bind_ok (asListM_list camps _)) ?_
  refine Eq.trans (M.bind_ok
    (pyFilterM_pure (fun c hcm s2 => isActiveM_run (hcdict c hcm) s2) _)) ?_
  refine Eq.trans (M.bind_ok (run_list_insertion_orders_none svc hio _)) ?_
  refine Eq.trans (M.bind_ok (asListM_list ios _)) ?_
  refine Eq.trans (M.bind_ok (run_list_line_items_for_io_none svc hli _)) ?_
  refine Eq.trans (M.bind_ok (asListM_list lis _)) ?_
  refine Eq.trans (M.bind_ok (run_list_creatives svc hcr _)) ?_
  refine Eq.trans (M.bind_ok (asListM_list crs _)) ?_
  rw [M.pure_eq]
  simp [List.append_assoc]

/-- The entities of the specification's concrete advertiser-summary stub:
three campaigns (one active), two insertion orders, five line items, no
creatives. -/
def c8Adv : Val := Val.dict [("advertiserId", Val.str "A1"), ("displayName", Val.str "Acme")]

def c8CampA : Val :=
  Val.dict [("campaignId", Val.str "C1"), ("entityStatus", Val.str "ENTITY_STATUS_ACTIVE")]

def c8CampB : Val :=
  Val.dict [("campaignId", Val.str "C2"), ("entityStatus", Val.str "ENTITY_STATUS_PAUSED")]

def c8CampC : Val :=
  Val.dict [("campaignId", Val.str "C3"), ("entityStatus", Val.str "ENTITY_STATUS_DRAFT")]

def c8Svc : Service := stubSvc
  (Except.ok (Val.dict [("partners", Val.list [Val.dict [("partnerId", Val.str "P1")]])]))
  (Except.ok (Val.dict [("advertisers", Val.list [c8Adv])]))
  (Except.ok (Val.dict [("campaigns", Val.list [c8CampA, c8CampB, c8CampC])]))
  (Except.ok (Val.dict [("insertionOrders", Val.list [
    Val.dict [("insertionOrderId", Val.str "IO1")],
    Val.dict [("insertionOrderId", Val.str "IO2")]])]))
  (Except.ok (Val.dict [("lineItems", Val.list [
    Val.dict [("lineItemId", Val.str "L1")], Val.dict [("lineItemId", Val.str "L2")],
    Val.dict [("lineItemId", Val.str "L3")], Val.dict [("lineItemId", Val.str "L4")],
    Val.dict [("lineItemId", Val.str "L5")]])]))
  (Except.ok (Val.dict [("creatives", Val.list [])]))

def c8Expected : Val := Val.dict [
  ("advertiser", c8Adv),
  ("summary", Val.dict [
    ("total_campaigns", Val.nat 3),
    ("active_campaigns", Val.nat 1),
    ("insertion_orders", Val.nat 2),
    ("line_items", Val.nat 5),
    ("creatives", Val.nat 0)]),
  ("recent_campaigns", Val.list [c8CampA, c8CampB, c8CampC])]

def c8Logs : List String := ["partners.list()", "advertisers.list(partnerId=P1)",
  "advertisers.campaigns.list(advertiserId=A1)",
  "advertisers.insertionOrders.list(advertiserId=A1)",
  "advertisers.lineItems.list(advertiserId=A1)",
  "advertisers.creatives.list(advertiserId=A1)"]

/-- C8: when every fan-out listing call succeeds and the advertiser is
found (a truthy record, as the source's `if not advertiser:` reads
"found"), `get_advertiser_summary` returns the advertiser record, counts
equal to the lengths of the campaign / active-campaign / insertion-order /
line-item / creative listings, and a `recent_campaigns` list of the first
five campaigns (hence at most 5 entries); in particular, for the stub with
3 campaigns (1 active), 2 insertion orders, 5 line items and 0 creatives
it returns counts 3/1/2/5/0. -/
theorem C8_advertiser_summary (svc : Service) (aidV pid adv : Val)
    (p0kvs : List (String × Val)) (prest advs camps ios lis crs : List Val)
    (hp : svc.partners_list =
      Except.ok (Val.dict [("partners", Val.list (Val.dict p0kvs :: prest))]))
    (hpid : (pyLookup p0kvs "partnerId").getD Val.none = pid)
    (ha : svc.advertisers_list pid = Except.ok (Val.dict [("advertisers", Val.list advs)]))
    (hdicts : ∀ a ∈ advs, IsDict a)
    (hfind : advs.find? (advMatches aidV) = Option.some adv)
    (htr : pyTruthy adv = true)
    (hc : svc.campaigns_list aidV = Except.ok (Val.dict [("campaigns", Val.list camps)]))
    (hcdict : ∀ c ∈ camps, IsDict c)
    (hio : svc.insertionOrders_list aidV Option.none =
      Except.ok (Val.dict [("insertionOrders", Val.list ios)]))
    (hli : svc.lineItems_list aidV Option.none =
      Except.ok (Val.dict [("lineItems", Val.list lis)]))
    (hcr : svc.creatives_list aidV = Except.ok (Val.dict [("creatives", Val.list crs)])) :
    runM (DV360Client.get_advertiser_summary (Except.ok svc) aidV) =
      (Except.ok (Val.dict [
        ("advertiser", adv),
        ("summary", Val.dict [
          ("total_campaigns", Val.nat camps.length),
          ("active_campaigns", Val.nat (camps.filter isActive).length),
          ("insertion_orders", Val.nat ios.length),
          ("line_items", Val.nat lis.length),
          ("creatives", Val.nat crs.length)]),
        ("recent_campaigns", Val.list (camps.take 5))]),
       ["partners.list()",
        "advertisers.list(partnerId=" ++ pyStr pid ++ ")",
        "advertisers.campaigns.list(advertiserId=" ++ pyStr aidV ++ ")",
        "advertisers.insertionOrders.list(advertiserId=" ++ pyStr aidV ++ ")",
        "advertisers.lineItems.list(advertiserId=" ++ pyStr aidV ++ ")",
        "advertisers.creatives.list(advertiserId=" ++ pyStr aidV ++ ")"])
    ∧ (camps.take 5).length ≤ 5
    ∧ runM (DV360Client.get_advertiser_summary (Except.ok c8Svc) (Val.str "A1")) =
        (Except.ok c8Expected, c8Logs) := by
  refine ⟨?_, ?_, rfl⟩
  · have hbody : DV360Client.summaryTry (Except.ok svc) aidV [] =
        (Except.ok (Val.dict [
          ("advertiser", adv),
          ("summary", Val.dict [
            ("total_campaigns", Val.nat camps.length),
            ("active_campaigns", Val.nat (camps.filter isActive).length),
            ("insertion_orders", Val.nat ios.length),
            ("line_items", Val.nat lis.length),
            ("creatives", Val.nat crs.length)]),
          ("recent_campaigns", Val.list (camps.take 5))]),
         ["partners.list()",
          "advertisers.list(partnerId=" ++ pyStr pid ++ ")",
          "advertisers.campaigns.list(advertiserId=" ++ pyStr aidV ++ ")",
          "advertisers.insertionOrders.list(advertiserId=" ++ pyStr aidV ++ ")",
          "advertisers.lineItems.list(advertiserId=" ++ pyStr aidV ++ ")",
          "advertisers.creatives.list(advertiserId=" ++ pyStr aidV ++ ")"]) := by
      unfold DV360Client.summaryTry
      refine Eq.trans (M.bind_ok (run_list_advertisers svc hp hpid ha [])) ?_
      refine Eq.trans (M.bind_ok (asListM_list advs _)) ?_
      refine Eq.trans (M.bind_ok
        (pyFindM_pure (fun a hx s2 => advMatchM_run aidV (hdicts a hx) s2) _)) ?_
      rw [hfind]
      simp only [Option.getD_some, htr, Bool.not_true, Bool.false_eq_true, if_false]
      exact run_summaryFound svc hc hcdict hio hli hcr _
    unfold DV360Client.get_advertiser_summary runM
    rw [tryCatchM.ok hbody]
  · simp [List.length_take_le]

/-- C8 witness: the aggregation discharged at the concrete stub (3
campaigns of which 1 active, 2 insertion orders, 5 line items, 0
creatives yields counts 3/1/2/5/0). -/
theorem C8_advertiser_summary_witness :
    runM (DV360Client.get_advertiser_summary (Except.ok c8Svc) (Val.str "A1")) =
      (Except.ok c8Expected, c8Logs) := by
  have h := C8_advertiser_summary c8Svc (Val.str "A1") (Val.str "P1") c8Adv
    [("partnerId", Val.str "P1")] [] [c8Adv] [c8CampA, c8CampB, c8CampC]
    [Val.dict [("insertionOrderId", Val.str "IO1")],
     Val.dict [("insertionOrderId", Val.str "IO2")]]
    [Val.dict [("lineItemId", Val.str "L1")], Val.dict [("lineItemId", Val.str "L2")],
     Val.dict [("lineItemId", Val.str "L3")], Val.dict [("lineItemId", Val.str "L4")],
     Val.dict [("lineItemId", Val.str "L5")]]
    []
    rfl rfl rfl
    (by intro a ha
        fin_cases ha
        exact ⟨_, rfl⟩)
    rfl rfl rfl
    (by intro c hcm
        fin_cases hcm <;> exact ⟨_, rfl⟩)
    rfl rfl rfl
  exact h.2.2

theorem errA_summaryFound (svc : Service) {aidV adv : Val} {e : String}
    (hce : svc.campaigns_list aidV = Except.error e) (s : List String) :
    DV360Client.summaryFound (Except.ok svc) aidV adv s =
      (Except.error e,
       s ++ ["advertisers.campaigns.list(advertiserId=" ++ pyStr aidV ++ ")"]) := by
  unfold DV360Client.summaryFound
  exact M.bind_err (err_list_campaigns_for_advertiser svc hce s)

theorem errB_summaryFound (svc : Service) {aidV adv : Val} {camps : List Val} {e : String}
    (hc : svc.campaigns_list aidV = Except.ok (Val.dict [("campaigns", Val.list camps)]))
    (hcdict : ∀ c ∈ camps, IsDict c)
    (hioe : svc.insertionOrders_list aidV Option.none = Except.error e) (s : List String) :
    DV360Client.summaryFound (Except.ok svc) aidV adv s =
      (Except.error e,
       s ++ ["advertisers.campaigns.list(advertiserId=" ++ pyStr aidV ++ ")",
         "advertisers.insertionOrders.list(advertiserId=" ++ pyStr aidV ++ ")"]) := by
  unfold DV360Client.summaryFound
  refine Eq.trans (M.bind_ok (run_list_campaigns_for_advertiser2 svc hc s)) ?_
  refine Eq.trans (M.bind_ok (asListM_list camps _)) ?_
  refine Eq.trans (M.bind_ok
    (pyFilterM_pure (fun c hcm s2 => isActiveM_run (hcdict c hcm) s2) _)) ?_
  have h2 := M.bind_err (f := fun iosV => (do
      let iosL ← asListM iosV
      let lis ← DV360Client.list_line_items_for_io (Except.ok svc) aidV Val.none
      let lisL ← asListM lis
      let cres ← DV360Client.list_creatives (Except.ok svc) aidV
      let cresL ← asListM cres
      pure (Val.dict [
        ("advertiser", adv),
        ("summary", Val.dict [
          ("total_campaigns", Val.nat camps.length),
          ("active_campaigns", Val.nat ((camps.filter isActive)).length),
          ("insertion_orders", Val.nat iosL.length),
          ("line_items", Val.nat lisL.length),
          ("creatives", Val.nat cresL.length)]),
        ("recent_campaigns", Val.list (camps.take 5))]) : M Val))
    (err_list_insertion_orders_none svc hioe
      (s ++ ["advertisers.campaigns.list(advertiserId=" ++ pyStr aidV ++ ")"]))
  rw [List.append_assoc] at h2
  exact h2

theorem errC_summaryFound (svc : Service) {aidV adv : Val} {camps ios : List Val} {e : String}
    (hc : svc.campaigns_list aidV = Except.ok (Val.dict [("campaigns", Val.list camps)]))
    (hcdict : ∀ c ∈ camps, IsDict c)
    (hio : svc.insertionOrders_list aidV Option.none =
      Except.ok (Val.dict [("insertionOrders", Val.list ios)]))
    (hlie : svc.lineItems_list aidV Option.none = Except.error e) (s : List String) :
    DV360Client.summaryFound (Except.ok svc) aidV adv s =
      (Except.error e,
       s ++ ["advertisers.campaigns.list(advertiserId=" ++ pyStr aidV ++ ")",
         "advertisers.insertionOrders.list(advertiserId=" ++ pyStr aidV ++ ")",
         "advertisers.lineItems.list(advertiserId=" ++ pyStr aidV ++ ")"]) := by
  unfold DV360Client.summaryFound
  refine Eq.trans (M.bind_ok (run_list_campaigns_for_advertiser2 svc hc s)) ?_
  refine Eq.trans (M.bind_ok (asListM_list camps _)) ?_
  refine Eq.trans (M.bind_ok
    (pyFilterM_pure (fun c hcm s2 => isActiveM_run (hcdict c hcm) s2) _)) ?_
  refine Eq.trans (M.bind_ok (run_list_insertion_orders_none svc hio _)) ?_
  refine Eq.trans (M.bind_ok (asListM_list ios _)) ?_
  have h2 := M.bind_err (f := fun lisV => (do
      let lisL ← asListM lisV
      let cres ← DV360Client.list_creatives (Except.ok svc) aidV
      let cresL ← asListM cres
      pure (Val.dict [
        ("advertiser", adv),
        ("summary", Val.dict [
          ("total_campaigns", Val.nat camps.length),
          ("active_campaigns", Val.nat ((camps.filter isActive)).length),
          ("insertion_orders", Val.nat ios.length),
          ("line_items", Val.nat lisL.length),
          ("creatives", Val.nat cresL.length)]),
        ("recent_campaigns", Val.list (camps.take 5))]) : M Val))
    (err_list_line_items_for_io_none svc hlie
      ((s ++ ["advertisers.campaigns.list(advertiserId=" ++ pyStr aidV ++ ")"]) ++
        ["advertisers.insertionOrders.list(advertiserId=" ++ pyStr aidV ++ ")"]))
  simpa using h2

theorem errD_summaryFound (svc : Service) {aidV adv : Val} {camps ios lis : List Val}
    {e : String}
    (hc : svc.campaigns_list aidV = Except.ok (Val.dict [("campaigns", Val.list camps)]))
    (hcdict : ∀ c ∈ camps, IsDict c)
    (hio : svc.insertionOrders_list aidV Option.none =
      Except.ok (Val.dict [("insertionOrders", Val.list ios)]))
    (hli : svc.lineItems_list aidV Option.none =
      Except.ok (Val.dict [("lineItems", Val.list lis)]))
    (hcre : svc.creatives_list aidV = Except.error e) (s : List String) :
    DV360Client.summaryFound (Except.ok svc) aidV adv s =
      (Except.error e,
       s ++ ["advertisers.campaigns.list(advertiserId=" ++ pyStr aidV ++ ")",
         "advertisers.insertionOrders.list(advertiserId=" ++ pyStr aidV ++ ")",
         "advertisers.lineItems.list(advertiserId=" ++ pyStr aidV ++ ")",
         "advertisers.creatives.list(advertiserId=" ++ pyStr aidV ++ ")"]) := by
  unfold DV360Client.summaryFound
  refine Eq.trans (M.bind_ok (run_list_campaigns_for_advertiser2 svc hc s)) ?_
  refine Eq.trans (M.bind_ok (asListM_list camps _)) ?_
  refine Eq.trans (M.bind_ok
    (pyFilterM_pure (fun c hcm s2 => isActiveM_run (hcdict c hcm) s2) _)) ?_
  refine Eq.trans (M.bind_ok (run_list_insertion_orders_none svc hio _)) ?_
  refine Eq.trans (M.bind_ok (asListM_list ios _)) ?_
  refine Eq.trans (M.bind_ok (run_list_line_items_for_io_none svc hli _)) ?_
  refine Eq.trans (M.bind_ok (asListM_list lis _)) ?_
  have h2 := M.bind_err (f := fun cresV => (do
      let cresL ← asListM cresV
      pure (Val.dict [
        ("advertiser", adv),
        ("summary", Val.dict [
          ("total_campaigns", Val.nat camps.length),
          ("active_campaigns", Val.nat ((camps.filter isActive)).length),
          ("insertion_orders", Val.nat ios.length),
          ("line_items", Val.nat lis.length),
          ("creatives", Val.nat cresL.length)]),
        ("recent_campaigns", Val.list (camps.take 5))]) : M Val))
    (err_list_creatives svc hcre
      (((s ++ ["advertisers.campaigns.list(advertiserId=" ++ pyStr aidV ++ ")"]) ++
        ["advertisers.insertionOrders.list(advertiserId=" ++ pyStr aidV ++ ")"]) ++
        ["advertisers.lineItems.list(advertiserId=" ++ pyStr aidV ++ ")"]))
  simpa using h2

/-- C9: when the advertiser is found (a truthy record, as the source's
`if not advertiser:` reads "found"), a raise in any of the fan-out
listing calls of `get_advertiser_summary` (campaigns, insertion orders,
line items, creatives) aborts the whole summary: the result is exactly the
mapping `{'error': str(e)}` — which carries no `summary` key, hence no
partial counts — and the log shows the fan-out stopped at the failing
call. -/
theorem C9_summary_aborts_on_failure (svc : Service) (aidV pid adv : Val)
    (p0kvs : List (String × Val)) (prest advs : List Val)
    (hp : svc.partners_list =
      Except.ok (Val.dict [("partners", Val.list (Val.dict p0kvs :: prest))]))
    (hpid : (pyLookup p0kvs "partnerId").getD Val.none = pid)
    (ha : svc.advertisers_list pid = Except.ok (Val.dict [("advertisers", Val.list advs)]))
    (hdicts : ∀ a ∈ advs, IsDict a)
    (hfind : advs.find? (advMatches aidV) = Option.some adv)
    (htr : pyTruthy adv = true) :
    (∀ e, svc.campaigns_list aidV = Except.error e →
      runM (DV360Client.get_advertiser_summary (Except.ok svc) aidV) =
        (Except.ok (Val.dict [("error", Val.str e)]),
         ["partners.list()", "advertisers.list(partnerId=" ++ pyStr pid ++ ")",
          "advertisers.campaigns.list(advertiserId=" ++ pyStr aidV ++ ")"]))
    ∧ (∀ camps e, svc.campaigns_list aidV =
          Except.ok (Val.dict [("campaigns", Val.list camps)]) →
        (∀ c ∈ camps, IsDict c) →
        svc.insertionOrders_list aidV Option.none = Except.error e →
        runM (DV360Client.get_advertiser_summary (Except.ok svc) aidV) =
          (Except.ok (Val.dict [("error", Val.str e)]),
           ["partners.list()", "advertisers.list(partnerId=" ++ pyStr pid ++ ")",
            "advertisers.campaigns.list(advertiserId=" ++ pyStr aidV ++ ")",
            "advertisers.insertionOrders.list(advertiserId=" ++ pyStr aidV ++ ")"]))
    ∧ (∀ camps ios e, svc.campaigns_list aidV =
          Except.ok (Val.dict [("campaigns", Val.list camps)]) →
        (∀ c ∈ camps, IsDict c) →
        svc.insertionOrders_list aidV Option.none =
          Except.ok (Val.dict [("insertionOrders", Val.list ios)]) →
        svc.lineItems_list aidV Option.none = Except.error e →
        runM (DV360Client.get_advertiser_summary (Except.ok svc) aidV) =
          (Except.ok (Val.dict [("error", Val.str e)]),
           ["partners.list()", "advertisers.list(partnerId=" ++ pyStr pid ++ ")",
            "advertisers.campaigns.list(advertiserId=" ++ pyStr aidV ++ ")",
            "advertisers.insertionOrders.list(advertiserId=" ++ pyStr aidV ++ ")",
            "advertisers.lineItems.list(advertiserId=" ++ pyStr aidV ++ ")"]))
    ∧ (∀ camps ios lis e, svc.campaigns_list aidV =
          Except.ok (Val.dict [("campaigns", Val.list camps)]) →
        (∀ c ∈ camps, IsDict c) →
        svc.insertionOrders_list aidV Option.none =
          Except.ok (Val.dict [("insertionOrders", Val.list ios)]) →
        svc.lineItems_list aidV Option.none =
          Except.ok (Val.dict [("lineItems", Val.list lis)]) →
        svc.creatives_list aidV = Except.error e →
        runM (DV360Client.get_advertiser_summary (Except.ok svc) aidV) =
          (Except.ok (Val.dict [("error", Val.str e)]),
           ["partners.list()", "advertisers.list(partnerId=" ++ pyStr pid ++ ")",
            "advertisers.campaigns.list(advertiserId=" ++ pyStr aidV ++ ")",
            "advertisers.insertionOrders.list(advertiserId=" ++ pyStr aidV ++ ")",
            "advertisers.lineItems.list(advertiserId=" ++ pyStr aidV ++ ")",
            "advertisers.creatives.list(advertiserId=" ++ pyStr aidV ++ ")"]))
    ∧ (∀ e, pyGetTotal (Val.dict [("error", Val.str e)]) "summary" = Val.none
        ∧ pyGetTotal (Val.dict [("error", Val.str e)]) "error" = Val.str e) := by
  refine ⟨?_, ?_, ?_, ?_, fun e => ⟨rfl, rfl⟩⟩
  · intro e hce
    have hbody : DV360Client.summaryTry (Except.ok svc) aidV [] =
        (Except.error e,
         ["partners.list()", "advertisers.list(partnerId=" ++ pyStr pid ++ ")",
          "advertisers.campaigns.list(advertiserId=" ++ pyStr aidV ++ ")"]) := by
      unfold DV360Client.summaryTry
      refine Eq.trans (M.bind_ok (run_list_advertisers svc hp hpid ha [])) ?_
      refine Eq.trans (M.bind_ok (asListM_list advs _)) ?_
      refine Eq.trans (M.bind_ok
        (pyFindM_pure (fun a hx s2 => advMatchM_run aidV (hdicts a hx) s2) _)) ?_
      rw [hfind]
      simp only [Option.getD_some, htr, Bool.not_true, Bool.false_eq_true, if_false]
      exact errA_summaryFound svc hce _
    unfold DV360Client.get_advertiser_summary runM
    rw [tryCatchM.err hbody]
    rfl
  · intro camps e hc hcdict hioe
    have hbody : DV360Client.summaryTry (Except.ok svc) aidV [] =
        (Except.error e,
         ["partners.list()", "advertisers.list(partnerId=" ++ pyStr pid ++ ")",
          "advertisers.campaigns.list(advertiserId=" ++ pyStr aidV ++ ")",
          "advertisers.insertionOrders.list(advertiserId=" ++ pyStr aidV ++ ")"]) := by
      unfold DV360Client.summaryTry
      refine Eq.trans (M.bind_ok (run_list_advertisers svc hp hpid ha [])) ?_
      refine Eq.trans (M.bind_ok (asListM_list advs _)) ?_
      refine Eq.trans (M.bind_ok
        (pyFindM_pure (fun a hx s2 => advMatchM_run aidV (hdicts a hx) s2) _)) ?_
      rw [hfind]
      simp only [Option.getD_some, htr, Bool.not_true, Bool.false_eq_true, if_false]
      exact errB_summaryFound svc hc hcdict hioe _
    unfold DV360Client.get_advertiser_summary runM
    rw [tryCatchM.err hbody]
    rfl
  · intro camps ios e hc hcdict hio hlie
    have hbody : DV360Client.summaryTry (Except.ok svc) aidV [] =
        (Except.error e,
         ["partners.list()", "advertisers.list(partnerId=" ++ pyStr pid ++ ")",
          "advertisers.campaigns.list(advertiserId=" ++ pyStr aidV ++ ")",
          "advertisers.insertionOrders.list(advertiserId=" ++ pyStr aidV ++ ")",
          "advertisers.lineItems.list(advertiserId=" ++ pyStr aidV ++ ")"]) := by
      unfold DV360Client.summaryTry
      refine Eq.trans (M.bind_ok (run_list_advertisers svc hp hpid ha [])) ?_
      refine Eq.trans (M.bind_ok (asListM_list advs _)) ?_
      refine Eq.trans (M.bind_ok
        (pyFindM_pure (fun a hx s2 => advMatchM_run aidV (hdicts a hx) s2) _)) ?_
      rw [hfind]
      simp only [Option.getD_some, htr, Bool.not_true, Bool.false_eq_true, if_false]
      exact errC_summaryFound svc hc hcdict hio hlie _
    unfold DV360Client.get_advertiser_summary runM
    rw [tryCatchM.err hbody]
    rfl
  · intro camps ios lis e hc hcdict hio hli hcre
    have hbody : DV360Client.summaryTry (Except.ok svc) aidV [] =
        (Except.error e,
         ["partners.list()", "advertisers.list(partnerId=" ++ pyStr pid ++ ")",
          "advertisers.campaigns.list(advertiserId=" ++ pyStr aidV ++ ")",
          "advertisers.insertionOrders.list(advertiserId=" ++ pyStr aidV ++ ")",
          "advertisers.lineItems.list(advertiserId=" ++ pyStr aidV ++ ")",
          "advertisers.creatives.list(advertiserId=" ++ pyStr aidV ++ ")"]) := by
      unfold DV360Client.summaryTry
      refine Eq.trans (M.bind_ok (run_list_advertisers svc hp hpid ha [])) ?_
      refine Eq.trans (M.bind_ok (asListM_list advs _)) ?_
      refine Eq.trans (M.bind_ok
        (pyFindM_pure (fun a hx s2 => advMatchM_run aidV (hdicts a hx) s2) _)) ?_
      rw [hfind]
      simp only [Option.getD_some, htr, Bool.not_true, Bool.false_eq_true, if_false]
      exact errD_summaryFound svc hc hcdict hio hli hcre _
    unfold DV360Client.get_advertiser_summary runM
    rw [tryCatchM.err hbody]
    rfl

/-- C9 witness: the abort property discharged at a concrete service whose
campaigns listing raises (the advertiser itself is found). -/
theorem C9_summary_aborts_on_failure_witness :
    runM (DV360Client.get_advertiser_summary
        (Except.ok (stubSvc
          (Except.ok (Val.dict [("partners", Val.list [Val.dict [("partnerId", Val.str "P1")]])]))
          (Except.ok (Val.dict [("advertisers", Val.list [c8Adv])]))
          (Except.error "quota exceeded") okd okd okd))
        (Val.str "A1")) =
      (Except.ok (Val.dict [("error", Val.str "quota exceeded")]),
       ["partners.list()", "advertisers.list(partnerId=P1)",
        "advertisers.campaigns.list(advertiserId=A1)"]) := by
  have h := C9_summary_aborts_on_failure
    (stubSvc
      (Except.ok (Val.dict [("partners", Val.list [Val.dict [("partnerId", Val.str "P1")]])]))
      (Except.ok (Val.dict [("advertisers", Val.list [c8Adv])]))
      (Except.error "quota exceeded") okd okd okd)
    (Val.str "A1") (Val.str "P1") c8Adv
    [("partnerId", Val.str "P1")] [] [c8Adv]
    rfl rfl rfl
    (by intro a ha2
        fin_cases ha2
        exact ⟨_, rfl⟩)
    rfl rfl
  exact h.1 "quota exceeded" rfl

theorem getArg_missing {args : Args} {k : String} (h : pyLookup args k = Option.none)
    (s : List String) : getArg args k s = (Except.error ("\x27" ++ k ++ "\x27"), s) := by
  unfold getArg
  rw [h]
  rfl

theorem getArg_found {args : Args} {k : String} {v : Val}
    (h : pyLookup args k = Option.some v) (s : List String) :
    getArg args k s = (Except.ok v, s) := by
  unfold getArg
  rw [h]
  rfl

theorem handle_call_tool_err {svcp : Except String Service} {name : String} {args : Args}
    {e : String} {log : List String}
    (h : FullServer.dispatchComp svcp name args [] = (Except.error e, log)) :
    FullServer.handle_call_tool svcp name args = (["Error: " ++ e], log) := by
  unfold FullServer.handle_call_tool runM
  rw [h]

theorem handle_call_tool_ok {svcp : Except String Service} {name : String} {args : Args}
    {v : Val} {log : List String}
    (h : FullServer.dispatchComp svcp name args [] = (Except.ok v, log)) :
    FullServer.handle_call_tool svcp name args = ([pyStr v], log) := by
  unfold FullServer.handle_call_tool runM
  rw [h]

/-- C5 counterexample: `get_real_campaign_performance` is a catalogued tool
whose schema declares `advertiser_id` required, yet calling it with an
empty argument mapping yields the `AttributeError` text, which does not
mention the missing key at all (the callable is evaluated — and fails —
before the arguments are read). -/
theorem C5_counterexample :
    (("get_real_campaign_performance", ["advertiser_id", "campaign_id"]) ∈
      FullServer.brokenToolRequired)
    ∧ FullServer.handle_call_tool (Except.error "unreachable")
        "get_real_campaign_performance" [] =
      (["Error: " ++ FullServer.attrErr "get_real_campaign_performance"], [])
    ∧ strIn "advertiser_id"
        ("Error: " ++ FullServer.attrErr "get_real_campaign_performance") = false := by
  refine ⟨by decide, rfl, by decide⟩

/-- C5 (amended): for every tool whose dispatch target exists on
`DV360Client` (all catalogued tools except the eight
real-performance/metadata ones) and every argument mapping from which
exactly one schema-required key is absent, dispatch returns an error text
that mentions that key (it is the quoted `KeyError` text) and issues no
remote call; the eight broken tools instead fail with an attribute-error
text that does not name the argument. -/
theorem C5_missing_required_argument (svcp : Except String Service) (args : Args)
    (name : String) (req : List String) (k : String)
    (hmem : (name, req) ∈ FullServer.workingToolRequired)
    (hk : k ∈ req)
    (habs : pyLookup args k = Option.none)
    (hoth : ∀ r ∈ req, r ≠ k → (pyLookup args r).isSome = true) :
    FullServer.handle_call_tool svcp name args =
      (["Error: " ++ ("\x27" ++ k ++ "\x27")], [])
    ∧ (∃ pre post, "Error: " ++ ("\x27" ++ k ++ "\x27") = pre ++ k ++ post) := by
  refine ⟨?_, "Error: \x27", "\x27", rfl⟩
  fin_cases hmem
  · -- create_campaign
    fin_cases hk
    · exact handle_call_tool_err (M.bind_err (getArg_missing habs []))
    · obtain ⟨v1, hv1⟩ := Option.isSome_iff_exists.mp
        (hoth "advertiser_id" (by decide) (by decide))
      exact handle_call_tool_err (Eq.trans (M.bind_ok (getArg_found hv1 []))
        (M.bind_err (getArg_missing habs [])))
    · obtain ⟨v1, hv1⟩ := Option.isSome_iff_exists.mp
        (hoth "advertiser_id" (by decide) (by decide))
      obtain ⟨v2, hv2⟩ := Option.isSome_iff_exists.mp
        (hoth "campaign_name" (by decide) (by decide))
      exact handle_call_tool_err (Eq.trans (M.bind_ok (getArg_found hv1 []))
        (Eq.trans (M.bind_ok (getArg_found hv2 []))
          (M.bind_err (getArg_missing habs []))))
  · -- update_line_item_targeting
    fin_cases hk
    · exact handle_call_tool_err (M.bind_err (getArg_missing habs []))
    · obtain ⟨v1, hv1⟩ := Option.isSome_iff_exists.mp
        (hoth "line_item_id" (by decide) (by decide))
      exact handle_call_tool_err (Eq.trans (M.bind_ok (getArg_found hv1 []))
        (M.bind_err (getArg_missing habs [])))
  · -- get_campaign_performance
    fin_cases hk
    · exact handle_call_tool_err (M.bind_err (getArg_missing habs []))
    · obtain ⟨v1, hv1⟩ := Option.isSome_iff_exists.mp
        (hoth "campaign_id" (by decide) (by decide))
      exact handle_call_tool_err (Eq.trans (M.bind_ok (getArg_found hv1 []))
        (M.bind_err (getArg_missing habs [])))
  · -- pause_line_item
    fin_cases hk
    exact handle_call_tool_err (M.bind_err (getArg_missing habs []))
  · -- create_audience_list
    fin_cases hk
    · exact handle_call_tool_err (M.bind_err (getArg_missing habs []))
    · obtain ⟨v1, hv1⟩ := Option.isSome_iff_exists.mp
        (hoth "advertiser_id" (by decide) (by decide))
      exact handle_call_tool_err (Eq.trans (M.bind_ok (getArg_found hv1 []))
        (M.bind_err (getArg_missing habs [])))
    · obtain ⟨v1, hv1⟩ := Option.isSome_iff_exists.mp
        (hoth "advertiser_id" (by decide) (by decide))
      obtain ⟨v2, hv2⟩ := Option.isSome_iff_exists.mp
        (hoth "audience_name" (by decide) (by decide))
      exact handle_call_tool_err (Eq.trans (M.bind_ok (getArg_found hv1 []))
        (Eq.trans (M.bind_ok (getArg_found hv2 []))
          (M.bind_err (getArg_missing habs []))))
  · -- get_insertion_order_details
    fin_cases hk
    · exact handle_call_tool_err (M.bind_err (getArg_missing habs []))
    · obtain ⟨v1, hv1⟩ := Option.isSome_iff_exists.mp
        (hoth "advertiser_id" (by decide) (by decide))
      exact handle_call_tool_err (Eq.trans (M.bind_ok (getArg_found hv1 []))
        (M.bind_err (getArg_missing habs [])))
  · -- get_line_item_details
    fin_cases hk
    · exact handle_call_tool_err (M.bind_err (getArg_missing habs []))
    · obtain ⟨v1, hv1⟩ := Option.isSome_iff_exists.mp
        (hoth "advertiser_id" (by decide) (by decide))
      exact handle_call_tool_err (Eq.trans (M.bind_ok (getArg_found hv1 []))
        (M.bind_err (getArg_missing habs [])))
  · -- get_targeting_options
    fin_cases hk
    · exact handle_call_tool_err (M.bind_err (getArg_missing habs []))
    · obtain ⟨v1, hv1⟩ := Option.isSome_iff_exists.mp
        (hoth "advertiser_id" (by decide) (by decide))
      exact handle_call_tool_err (Eq.trans (M.bind_ok (getArg_found hv1 []))
        (M.bind_err (getArg_missing habs [])))
  · -- get_campaign_performance_summary
    fin_cases hk
    · exact handle_call_tool_err (M.bind_err (getArg_missing habs []))
    · obtain ⟨v1, hv1⟩ := Option.isSome_iff_exists.mp
        (hoth "advertiser_id" (by decide) (by decide))
      exact handle_call_tool_err (Eq.trans (M.bind_ok (getArg_found hv1 []))
        (M.bind_err (getArg_missing habs [])))
  · -- list_insertion_orders
    fin_cases hk
    exact handle_call_tool_err (M.bind_err (getArg_missing habs []))
  · -- list_line_items_for_io
    fin_cases hk
    exact handle_call_tool_err (M.bind_err (getArg_missing habs []))
  · -- list_creatives
    fin_cases hk
    exact handle_call_tool_err (M.bind_err (getArg_missing habs []))
  · -- get_creative_details
    fin_cases hk
    · exact handle_call_tool_err (M.bind_err (getArg_missing habs []))
    · obtain ⟨v1, hv1⟩ := Option.isSome_iff_exists.mp
        (hoth "advertiser_id" (by decide) (by decide))
      exact handle_call_tool_err (Eq.trans (M.bind_ok (getArg_found hv1 []))
        (M.bind_err (getArg_missing habs [])))
  · -- list_audiences_for_advertiser
    fin_cases hk
    exact handle_call_tool_err (M.bind_err (getArg_missing habs []))
  · -- get_audience_details
    fin_cases hk
    · exact handle_call_tool_err (M.bind_err (getArg_missing habs []))
    · obtain ⟨v1, hv1⟩ := Option.isSome_iff_exists.mp
        (hoth "advertiser_id" (by decide) (by decide))
      exact handle_call_tool_err (Eq.trans (M.bind_ok (getArg_found hv1 []))
        (M.bind_err (getArg_missing habs [])))
  · -- list_saved_reports (no required arguments: nothing to show)
    fin_cases hk
  · -- get_advertiser_summary
    fin_cases hk
    exact handle_call_tool_err (M.bind_err (getArg_missing habs []))

/-- C5 witness: `create_campaign` with `campaign_goal` the one absent
required key yields the `KeyError` text naming it, with no remote call. -/
theorem C5_missing_required_argument_witness :
    FullServer.handle_call_tool (Except.error "unreachable") "create_campaign"
      [("advertiser_id", Val.str "A1"), ("campaign_name", Val.str "N")] =
      (["Error: " ++ ("\x27" ++ "campaign_goal" ++ "\x27")], []) := by
  have h := C5_missing_required_argument (Except.error "unreachable")
    [("advertiser_id", Val.str "A1"), ("campaign_name", Val.str "N")]
    "create_campaign" ["advertiser_id", "campaign_name", "campaign_goal"] "campaign_goal"
    (by decide) (by decide) rfl
    (by intro r hr hne
        fin_cases hr <;> simp_all [pyLookup])
  exact h.1

theorem ne_empty_of_data_cons {s : String} {c : Char} {cs : List Char}
    (h : s.data = c :: cs) : s ≠ "" := by
  intro he
  rw [he] at h
  exact List.noConfusion h

theorem text_ne_empty_of_handle {svcp : Except String Service} {name : String} {args : Args}
    {x : String} {log : List String} {t : String}
    (hh : FullServer.handle_call_tool svcp name args = ([x], log))
    (ht : t ∈ (FullServer.handle_call_tool svcp name args).fst)
    (hx : x ≠ "") : t ≠ "" := by
  rw [hh] at ht
  simp only [List.mem_singleton] at ht
  rw [ht]
  exact hx

theorem pause_line_item_fail (v1 : Val) :
    ∃ e, DV360Client.pause_line_item (Except.error "unreachable") v1 [] =
      (Except.error e, []) ∧ e ≠ "" := by
  cases v1 with
  | str s =>
    unfold DV360Client.pause_line_item
    rcases hp : s.splitOn "/" with _ | ⟨a, _ | ⟨b, _ | ⟨c, _ | ⟨d, rest⟩⟩⟩⟩
    · exact ⟨"Invalid line item ID format",
        (M.bind_ok (M.pure_eq s [])).trans (by simp only [hp]; rfl), by decide⟩
    · exact ⟨"Invalid line item ID format",
        (M.bind_ok (M.pure_eq s [])).trans (by simp only [hp]; rfl), by decide⟩
    · exact ⟨"Invalid line item ID format",
        (M.bind_ok (M.pure_eq s [])).trans (by simp only [hp]; rfl), by decide⟩
    · exact ⟨"Invalid line item ID format",
        (M.bind_ok (M.pure_eq s [])).trans (by simp only [hp]; rfl), by decide⟩
    · exact ⟨"unreachable",
        (M.bind_ok (M.pure_eq s [])).trans (by simp only [hp]; rfl), by decide⟩
  | none => exact ⟨"AttributeError: split", rfl, by decide⟩
  | bool b => exact ⟨"AttributeError: split", rfl, by decide⟩
  | nat n => exact ⟨"AttributeError: split", rfl, by decide⟩
  | list xs => exact ⟨"AttributeError: split", rfl, by decide⟩
  | dict kvs => exact ⟨"AttributeError: split", rfl, by decide⟩

/-- C1 counterexample: reading the catalogued resource
`dv360://advertisers` when the remote service cannot be built propagates
the exception past the read boundary (the handler's `except` clause
re-raises), so dispatch does not always return a textual result. -/
theorem C1_counterexample :
    runM (FullServer.handle_read_resource (Except.error "unreachable")
      "dv360://advertisers") = (Except.error "unreachable", []) := rfl

theorem err_text_ne_empty (e : String) : ("Error: " ++ e) ≠ "" := by
  cases e with
  | mk l => exact ne_empty_of_data_cons rfl

theorem pyStr_dict_ne_empty (kvs : List (String × Val)) : pyStr (Val.dict kvs) ≠ "" := by
  show ("\x7b" ++ pyReprEntries kvs ++ "\x7d") ≠ ""
  cases h : pyReprEntries kvs with
  | mk l => exact ne_empty_of_data_cons rfl

/-- C1 (amended): tool dispatch is total — for every tool name, argument
mapping and remote-layer behaviour it returns exactly one text segment and
never propagates an exception; an uncatalogued tool name yields the
`Error: Unknown tool` text; and when the remote service cannot be built
(backend unreachable), every catalogued tool still returns one non-empty
text.  Resource reads do not share this guarantee: with an unreachable
backend every catalogued resource URI propagates the exception past the
read boundary, and an uncatalogued URI raises `Unknown resource URI`
instead of returning a text. -/
theorem C1_dispatch_boundary :
    (∀ (svcp : Except String Service) (name : String) (args : Args),
      ∃ t, (FullServer.handle_call_tool svcp name args).fst = [t])
    ∧ (∀ (svcp : Except String Service) (args : Args) (name : String),
        name ∉ FullServer.toolNames →
        FullServer.handle_call_tool svcp name args =
          (["Error: " ++ ("Unknown tool: " ++ name)], []))
    ∧ (∀ name ∈ FullServer.toolNames, ∀ (args : Args),
        ∀ t ∈ (FullServer.handle_call_tool (Except.error "unreachable") name args).fst,
          t ≠ "")
    ∧ (∀ uri ∈ FullServer.resourceUris,
        runM (FullServer.handle_read_resource (Except.error "unreachable") uri) =
          (Except.error "unreachable", []))
    ∧ (∀ (svcp : Except String Service) (uri : String), uri ∉ FullServer.resourceUris →
        runM (FullServer.handle_read_resource svcp uri) =
          (Except.error ("Unknown resource URI: " ++ uri), [])) := by
  refine ⟨?_, ?_, ?_, ?_, ?_⟩
  · intro svcp name args
    rcases h : runM (FullServer.dispatchComp svcp name args) with ⟨res, log⟩
    cases res with
    | ok v => exact ⟨pyStr v, by unfold FullServer.handle_call_tool; rw [h]⟩
    | error e => exact ⟨"Error: " ++ e, by unfold FullServer.handle_call_tool; rw [h]⟩
  · intro svcp args name hn
    simp only [FullServer.toolNames, List.mem_cons, List.not_mem_nil, or_false,
      not_or] at hn
    obtain ⟨h1, h2, h3, h4, h5, h6, h7, h8, h9, h10, h11, h12, h13, h14, h15, h16, h17,
      h18, h19, h20, h21, h22, h23, h24, h25⟩ := hn
    apply handle_call_tool_err
    unfold FullServer.dispatchComp
    simp only [beq_iff_eq, h1, h2, h3, h4, h5, h6, h7, h8, h9, h10, h11, h12, h13, h14,
      h15, h16, h17, h18, h19, h20, h21, h22, h23, h24, h25, if_false]
    rfl
  · intro name hname args t ht
    fin_cases hname
    · -- create_campaign
      cases h1 : pyLookup args "advertiser_id" with
      | none => exact text_ne_empty_of_handle (handle_call_tool_err
          (M.bind_err (getArg_missing h1 []))) ht (err_text_ne_empty _)
      | some v1 =>
        cases h2 : pyLookup args "campaign_name" with
        | none => exact text_ne_empty_of_handle (handle_call_tool_err
            ((M.bind_ok (getArg_found h1 [])).trans
              (M.bind_err (getArg_missing h2 [])))) ht (err_text_ne_empty _)
        | some v2 =>
          cases h3 : pyLookup args "campaign_goal" with
          | none => exact text_ne_empty_of_handle (handle_call_tool_err
              ((M.bind_ok (getArg_found h1 [])).trans
                ((M.bind_ok (getArg_found h2 [])).trans
                  (M.bind_err (getArg_missing h3 []))))) ht (err_text_ne_empty _)
          | some v3 => exact text_ne_empty_of_handle (handle_call_tool_err
              ((M.bind_ok (getArg_found h1 [])).trans
                ((M.bind_ok (getArg_found h2 [])).trans
                  ((M.bind_ok (getArg_found h3 [])).trans rfl)))) ht (err_text_ne_empty _)
    · -- update_line_item_targeting
      cases h1 : pyLookup args "line_item_id" with
      | none => exact text_ne_empty_of_handle (handle_call_tool_err
          (M.bind_err (getArg_missing h1 []))) ht (err_text_ne_empty _)
      | some v1 =>
        cases h2 : pyLookup args "targeting_options" with
        | none => exact text_ne_empty_of_handle (handle_call_tool_err
            ((M.bind_ok (getArg_found h1 [])).trans
              (M.bind_err (getArg_missing h2 [])))) ht (err_text_ne_empty _)
        | some v2 => exact text_ne_empty_of_handle (handle_call_tool_err
            ((M.bind_ok (getArg_found h1 [])).trans
              ((M.bind_ok (getArg_found h2 [])).trans rfl))) ht (err_text_ne_empty _)
    · -- get_campaign_performance
      cases h1 : pyLookup args "campaign_id" with
      | none => exact text_ne_empty_of_handle (handle_call_tool_err
          (M.bind_err (getArg_missing h1 []))) ht (err_text_ne_empty _)
      | some v1 =>
        cases h2 : pyLookup args "date_range" with
        | none => exact text_ne_empty_of_handle (handle_call_tool_err
            ((M.bind_ok (getArg_found h1 [])).trans
              (M.bind_err (getArg_missing h2 [])))) ht (err_text_ne_empty _)
        | some v2 => exact text_ne_empty_of_handle (handle_call_tool_err
            ((M.bind_ok (getArg_found h1 [])).trans
              ((M.bind_ok (getArg_found h2 [])).trans rfl))) ht (err_text_ne_empty _)
    · -- pause_line_item
      cases h1 : pyLookup args "line_item_id" with
      | none => exact text_ne_empty_of_handle (handle_call_tool_err
          (M.bind_err (getArg_missing h1 []))) ht (err_text_ne_empty _)
      | some v1 =>
        obtain ⟨e, he, -⟩ := pause_line_item_fail v1
        exact @text_ne_empty_of_handle (Except.error "unreachable") "pause_line_item" args
          ("Error: " ++ e) [] t
          (handle_call_tool_err ((M.bind_ok (getArg_found h1 [])).trans he)) ht
          (err_text_ne_empty e)
    · -- create_audience_list
      cases h1 : pyLookup args "advertiser_id" with
      | none => exact text_ne_empty_of_handle (handle_call_tool_err
          (M.bind_err (getArg_missing h1 []))) ht (err_text_ne_empty _)
      | some v1 =>
        cases h2 : pyLookup args "audience_name" with
        | none => exact text_ne_empty_of_handle (handle_call_tool_err
            ((M.bind_ok (getArg_found h1 [])).trans
              (M.bind_err (getArg_missing h2 [])))) ht (err_text_ne_empty _)
        | some v2 =>
          cases h3 : pyLookup args "audience_type" with
          | none => exact text_ne_empty_of_handle (handle_call_tool_err
              ((M.bind_ok (getArg_found h1 [])).trans
                ((M.bind_ok (getArg_found h2 [])).trans
                  (M.bind_err (getArg_missing h3 []))))) ht (err_text_ne_empty _)
          | some v3 => exact text_ne_empty_of_handle (handle_call_tool_err
              ((M.bind_ok (getArg_found h1 [])).trans
                ((M.bind_ok (getArg_found h2 [])).trans
                  ((M.bind_ok (getArg_found h3 [])).trans rfl)))) ht (err_text_ne_empty _)
    · -- get_insertion_order_details
      cases h1 : pyLookup args "advertiser_id" with
      | none => exact text_ne_empty_of_handle (handle_call_tool_err
          (M.bind_err (getArg_missing h1 []))) ht (err_text_ne_empty _)
      | some v1 =>
        cases h2 : pyLookup args "insertion_order_id" with
        | none => exact text_ne_empty_of_handle (handle_call_tool_err
            ((M.bind_ok (getArg_found h1 [])).trans
              (M.bind_err (getArg_missing h2 [])))) ht (err_text_ne_empty _)
        | some v2 => exact text_ne_empty_of_handle (handle_call_tool_err
            ((M.bind_ok (getArg_found h1 [])).trans
              ((M.bind_ok (getArg_found h2 [])).trans rfl))) ht (err_text_ne_empty _)
    · -- get_line_item_details
      cases h1 : pyLookup args "advertiser_id" with
      | none => exact text_ne_empty_of_handle (handle_call_tool_err
          (M.bind_err (getArg_missing h1 []))) ht (err_text_ne_empty _)
      | some v1 =>
        cases h2 : pyLookup args "line_item_id" with
        | none => exact text_ne_empty_of_handle (handle_call_tool_err
            ((M.bind_ok (getArg_found h1 [])).trans
              (M.bind_err (getArg_missing h2 [])))) ht (err_text_ne_empty _)
        | some v2 => exact text_ne_empty_of_handle (handle_call_tool_err
            ((M.bind_ok (getArg_found h1 [])).trans
              ((M.bind_ok (getArg_found h2 [])).trans rfl))) ht (err_text_ne_empty _)
    · -- get_targeting_options
      cases h1 : pyLookup args "advertiser_id" with
      | none => exact text_ne_empty_of_handle (handle_call_tool_err
          (M.bind_err (getArg_missing h1 []))) ht (err_text_ne_empty _)
      | some v1 =>
        cases h2 : pyLookup args "line_item_id" with
        | none => exact text_ne_empty_of_handle (handle_call_tool_err
            ((M.bind_ok (getArg_found h1 [])).trans
              (M.bind_err (getArg_missing h2 [])))) ht (err_text_ne_empty _)
        | some v2 => exact text_ne_empty_of_handle (handle_call_tool_err
            ((M.bind_ok (getArg_found h1 [])).trans
              ((M.bind_ok (getArg_found h2 [])).trans rfl))) ht (err_text_ne_empty _)
    · -- get_campaign_performance_summary
      cases h1 : pyLookup args "advertiser_id" with
      | none => exact text_ne_empty_of_handle (handle_call_tool_err
          (M.bind_err (getArg_missing h1 []))) ht (err_text_ne_empty _)
      | some v1 =>
        cases h2 : pyLookup args "campaign_id" with
        | none => exact text_ne_empty_of_handle (handle_call_tool_err
            ((M.bind_ok (getArg_found h1 [])).trans
              (M.bind_err (getArg_missing h2 [])))) ht (err_text_ne_empty _)
        | some v2 => exact text_ne_empty_of_handle (handle_call_tool_ok
            ((M.bind_ok (getArg_found h1 [])).trans
              ((M.bind_ok (getArg_found h2 [])).trans rfl))) ht (pyStr_dict_ne_empty _)
    · -- list_insertion_orders
      cases h1 : pyLookup args "advertiser_id" with
      | none => exact text_ne_empty_of_handle (handle_call_tool_err
          (M.bind_err (getArg_missing h1 []))) ht (err_text_ne_empty _)
      | some v1 => exact text_ne_empty_of_handle (handle_call_tool_err
          ((M.bind_ok (getArg_found h1 [])).trans rfl)) ht (err_text_ne_empty _)
    · -- list_line_items_for_io
      cases h1 : pyLookup args "advertiser_id" with
      | none => exact text_ne_empty_of_handle (handle_call_tool_err
          (M.bind_err (getArg_missing h1 []))) ht (err_text_ne_empty _)
      | some v1 => exact text_ne_empty_of_handle (handle_call_tool_err
          ((M.bind_ok (getArg_found h1 [])).trans rfl)) ht (err_text_ne_empty _)
    · -- list_creatives
      cases h1 : pyLookup args "advertiser_id" with
      | none => exact text_ne_empty_of_handle (handle_call_tool_err
          (M.bind_err (getArg_missing h1 []))) ht (err_text_ne_empty _)
      | some v1 => exact text_ne_empty_of_handle (handle_call_tool_err
          ((M.bind_ok (getArg_found h1 [])).trans rfl)) ht (err_text_ne_empty _)
    · -- get_creative_details
      cases h1 : pyLookup args "advertiser_id" with
      | none => exact text_ne_empty_of_handle (handle_call_tool_err
          (M.bind_err (getArg_missing h1 []))) ht (err_text_ne_empty _)
      | some v1 =>
        cases h2 : pyLookup args "creative_id" with
        | none => exact text_ne_empty_of_handle (handle_call_tool_err
            ((M.bind_ok (getArg_found h1 [])).trans
              (M.bind_err (getArg_missing h2 [])))) ht (err_text_ne_empty _)
        | some v2 => exact text_ne_empty_of_handle (handle_call_tool_err
            ((M.bind_ok (getArg_found h1 [])).trans
              ((M.bind_ok (getArg_found h2 [])).trans rfl))) ht (err_text_ne_empty _)
    · -- list_audiences_for_advertiser
      cases h1 : pyLookup args "advertiser_id" with
      | none => exact text_ne_empty_of_handle (handle_call_tool_err
          (M.bind_err (getArg_missing h1 []))) ht (err_text_ne_empty _)
      | some v1 => exact text_ne_empty_of_handle (handle_call_tool_err
          ((M.bind_ok (getArg_found h1 [])).trans rfl)) ht (err_text_ne_empty _)
    · -- get_audience_details
      cases h1 : pyLookup args "advertiser_id" with
      | none => exact text_ne_empty_of_handle (handle_call_tool_err
          (M.bind_err (getArg_missing h1 []))) ht (err_text_ne_empty _)
      | some v1 =>
        cases h2 : pyLookup args "audience_id" with
        | none => exact text_ne_empty_of_handle (handle_call_tool_err
            ((M.bind_ok (getArg_found h1 [])).trans
              (M.bind_err (getArg_missing h2 [])))) ht (err_text_ne_empty _)
        | some v2 => exact text_ne_empty_of_handle (handle_call_tool_err
            ((M.bind_ok (getArg_found h1 [])).trans
              ((M.bind_ok (getArg_found h2 [])).trans rfl))) ht (err_text_ne_empty _)
    · -- list_saved_reports
      exact @text_ne_empty_of_handle (Except.error "unreachable") "list_saved_reports" args
        ("Error: " ++ "unreachable") [] t rfl ht (err_text_ne_empty "unreachable")
    · -- get_advertiser_summary
      cases h1 : pyLookup args "advertiser_id" with
      | none => exact text_ne_empty_of_handle (handle_call_tool_err
          (M.bind_err (getArg_missing h1 []))) ht (err_text_ne_empty _)
      | some v1 => exact text_ne_empty_of_handle (handle_call_tool_ok
          ((M.bind_ok (getArg_found h1 [])).trans rfl)) ht (pyStr_dict_ne_empty _)
    · exact @text_ne_empty_of_handle (Except.error "unreachable") "get_real_campaign_performance" args
        ("Error: " ++ FullServer.attrErr "get_real_campaign_performance") [] t rfl ht
        (err_text_ne_empty (FullServer.attrErr "get_real_campaign_performance"))
    · exact @text_ne_empty_of_handle (Except.error "unreachable") "get_real_advertiser_performance" args
        ("Error: " ++ FullServer.attrErr "get_real_advertiser_performance") [] t rfl ht
        (err_text_ne_empty (FullServer.attrErr "get_real_advertiser_performance"))
    · exact @text_ne_empty_of_handle (Except.error "unreachable") "get_real_line_item_performance" args
        ("Error: " ++ FullServer.attrErr "get_real_line_item_performance") [] t rfl ht
        (err_text_ne_empty (FullServer.attrErr "get_real_line_item_performance"))
    · exact @text_ne_empty_of_handle (Except.error "unreachable") "create_custom_performance_report" args
        ("Error: " ++ FullServer.attrErr "create_custom_performance_report") [] t rfl ht
        (err_text_ne_empty (FullServer.attrErr "create_custom_performance_report"))
    · exact @text_ne_empty_of_handle (Except.error "unreachable") "get_performance_report_data" args
        ("Error: " ++ FullServer.attrErr "get_performance_report_data") [] t rfl ht
        (err_text_ne_empty (FullServer.attrErr "get_performance_report_data"))
    · exact @text_ne_empty_of_handle (Except.error "unreachable") "list_performance_queries" args
        ("Error: " ++ FullServer.attrErr "list_performance_queries") [] t rfl ht
        (err_text_ne_empty (FullServer.attrErr "list_performance_queries"))
    · exact @text_ne_empty_of_handle (Except.error "unreachable") "get_available_performance_metrics" args
        ("Error: " ++ FullServer.attrErr "get_available_performance_metrics") [] t rfl ht
        (err_text_ne_empty (FullServer.attrErr "get_available_performance_metrics"))
    · exact @text_ne_empty_of_handle (Except.error "unreachable") "get_available_date_ranges" args
        ("Error: " ++ FullServer.attrErr "get_available_date_ranges") [] t rfl ht
        (err_text_ne_empty (FullServer.attrErr "get_available_date_ranges"))
  · intro uri hu
    fin_cases hu <;> rfl
  · intro svcp uri hu
    simp only [FullServer.resourceUris, List.mem_cons, List.not_mem_nil, or_false,
      not_or] at hu
    obtain ⟨g1, g2, g3, g4, g5⟩ := hu
    unfold FullServer.handle_read_resource runM
    simp only [beq_iff_eq, g1, g2, g3, g4, g5, if_false]
    rfl

theorem strAppend_assoc (a b c : String) : a ++ b ++ c = a ++ (b ++ c) := by
  cases a with
  | mk la =>
    cases b with
    | mk lb =>
      cases c with
      | mk lc => exact congrArg String.mk (List.append_assoc la lb lc)

theorem fmtPrefix_advertisers (d : Nat × String) :
    ∃ m ∈ SingleServer.statusMarkers, ∃ r, SingleServer.advertisersFmt d = m ++ r := by
  rcases d with ⟨n, body⟩
  refine ⟨SingleServer.mCheck, by decide, ?_⟩
  simp only [SingleServer.advertisersFmt, strAppend_assoc]
  exact ⟨_, rfl⟩

theorem fmtPrefix_advSummary (d : Sum Val (Val × Val × Val × Val × Val × Val × Val × String)) :
    ∃ m ∈ SingleServer.statusMarkers, ∃ r, SingleServer.advSummaryFmt d = m ++ r := by
  cases d with
  | inl ev =>
    refine ⟨SingleServer.mCross, by decide, ?_⟩
    simp only [SingleServer.advSummaryFmt, strAppend_assoc]
    exact ⟨_, rfl⟩
  | inr d =>
    obtain ⟨dn, aidV, tc, ac, ioN, liN, cr, rcsec⟩ := d
    refine ⟨SingleServer.mChart, by decide, ?_⟩
    simp only [SingleServer.advSummaryFmt, strAppend_assoc]
    exact ⟨_, rfl⟩

theorem fmtPrefix_campaigns (d : Val × Nat × String) :
    ∃ m ∈ SingleServer.statusMarkers, ∃ r, SingleServer.campaignsFmt d = m ++ r := by
  rcases d with ⟨aidV, n, body⟩
  refine ⟨SingleServer.mDart, by decide, ?_⟩
  simp only [SingleServer.campaignsFmt, strAppend_assoc]
  exact ⟨_, rfl⟩

theorem fmtPrefix_activeCampaigns (d : Val × Nat × String) :
    ∃ m ∈ SingleServer.statusMarkers, ∃ r, SingleServer.activeCampaignsFmt d = m ++ r := by
  rcases d with ⟨aidV, n, body⟩
  refine ⟨SingleServer.mGreen, by decide, ?_⟩
  simp only [SingleServer.activeCampaignsFmt, strAppend_assoc]
  exact ⟨_, rfl⟩

theorem fmtPrefix_search (d : Val × Nat × String) :
    ∃ m ∈ SingleServer.statusMarkers, ∃ r, SingleServer.searchFmt d = m ++ r := by
  rcases d with ⟨term, n, body⟩
  refine ⟨SingleServer.mSearch, by decide, ?_⟩
  simp only [SingleServer.searchFmt, strAppend_assoc]
  exact ⟨_, rfl⟩

theorem fmtPrefix_campDetails (d : Val × Val × Val × Val × Val) :
    ∃ m ∈ SingleServer.statusMarkers, ∃ r, SingleServer.campDetailsFmt d = m ++ r := by
  rcases d with ⟨n, idv, st, goal, ut⟩
  refine ⟨SingleServer.mDart, by decide, ?_⟩
  simp only [SingleServer.campDetailsFmt, strAppend_assoc]
  exact ⟨_, rfl⟩

theorem fmtPrefix_ios (d : Val × Nat × String) :
    ∃ m ∈ SingleServer.statusMarkers, ∃ r, SingleServer.iosFmt d = m ++ r := by
  rcases d with ⟨cidV, n, body⟩
  refine ⟨SingleServer.mClip, by decide, ?_⟩
  simp only [SingleServer.iosFmt, strAppend_assoc]
  exact ⟨_, rfl⟩

theorem fmtPrefix_lis (d : Val × Nat × String) :
    ∃ m ∈ SingleServer.statusMarkers, ∃ r, SingleServer.lisFmt d = m ++ r := by
  rcases d with ⟨ioV, n, body⟩
  refine ⟨SingleServer.mMemo, by decide, ?_⟩
  simp only [SingleServer.lisFmt, strAppend_assoc]
  exact ⟨_, rfl⟩

theorem fmtPrefix_creatives (d : Val × Nat × String) :
    ∃ m ∈ SingleServer.statusMarkers, ∃ r, SingleServer.creativesFmt d = m ++ r := by
  rcases d with ⟨aidV, n, body⟩
  refine ⟨SingleServer.mArt, by decide, ?_⟩
  simp only [SingleServer.creativesFmt, strAppend_assoc]
  exact ⟨_, rfl⟩

theorem fmtPrefix_audiences (d : Val × Nat × String) :
    ∃ m ∈ SingleServer.statusMarkers, ∃ r, SingleServer.audiencesFmt d = m ++ r := by
  rcases d with ⟨aidV, n, body⟩
  refine ⟨SingleServer.mPeople, by decide, ?_⟩
  simp only [SingleServer.audiencesFmt, strAppend_assoc]
  exact ⟨_, rfl⟩

theorem fmtPrefix_perfSummary (d : Sum Val (Val × Val × Val × Val × Val)) :
    ∃ m ∈ SingleServer.statusMarkers, ∃ r, SingleServer.perfSummaryFmt d = m ++ r := by
  cases d with
  | inl ev =>
    refine ⟨SingleServer.mCross, by decide, ?_⟩
    simp only [SingleServer.perfSummaryFmt, strAppend_assoc]
    exact ⟨_, rfl⟩
  | inr d =>
    obtain ⟨cn, cidV, drV, st, qid⟩ := d
    refine ⟨SingleServer.mChartUp, by decide, ?_⟩
    simp only [SingleServer.perfSummaryFmt, strAppend_assoc]
    exact ⟨_, rfl⟩

theorem fmtPrefix_savedReports (d : Val × Nat × String) :
    ∃ m ∈ SingleServer.statusMarkers, ∃ r, SingleServer.savedReportsFmt d = m ++ r := by
  rcases d with ⟨aidV, n, body⟩
  refine ⟨SingleServer.mChart, by decide, ?_⟩
  simp only [SingleServer.savedReportsFmt, strAppend_assoc]
  exact ⟨_, rfl⟩

theorem M.ite_run {α : Type} (P : Prop) [Decidable P] (x y : M α) (s : List String) :
    (if P then x else y) s = if P then x s else y s := by
  by_cases hp : P
  · rw [if_pos hp, if_pos hp]
  · rw [if_neg hp, if_neg hp]

theorem branch_ok {α : Type} {x : M α} {fmt : α → String} {ts log : List String}
    (h : (x >>= fun d => pure [fmt d]) [] = (Except.ok ts, log))
    (hf : ∀ d, ∃ m ∈ SingleServer.statusMarkers, ∃ r, fmt d = m ++ r) :
    ∀ t ∈ ts, ∃ m ∈ SingleServer.statusMarkers, ∃ r, t = m ++ r := by
  rcases hx : x [] with ⟨res, log2⟩
  cases res with
  | error e =>
    rw [M.bind_err hx] at h
    simp at h
  | ok d =>
    rw [(M.bind_ok hx).trans (M.pure_eq [fmt d] log2)] at h
    injection h with h1 h2
    injection h1 with h1
    subst h1
    intro t htl
    simp only [List.mem_singleton] at htl
    subst htl
    exact hf d

theorem singleComp_ok_prefix {svcp : Except String Service} {name : String} {args : Args}
    {ts log : List String}
    (h : runM (SingleServer.singleComp svcp name args) = (Except.ok ts, log)) :
    ∀ t ∈ ts, ∃ m ∈ SingleServer.statusMarkers, ∃ r, t = m ++ r := by
  unfold runM SingleServer.singleComp at h
  simp only [M.ite_run] at h
  by_cases h1 : (name == "list_advertisers") = true
  · rw [if_pos h1] at h
    exact branch_ok h fmtPrefix_advertisers
  · rw [if_neg h1] at h
    by_cases h2 : (name == "get_advertiser_summary") = true
    · rw [if_pos h2] at h
      exact branch_ok h fmtPrefix_advSummary
    · rw [if_neg h2] at h
      by_cases h3 : (name == "list_campaigns") = true
      · rw [if_pos h3] at h
        exact branch_ok h fmtPrefix_campaigns
      · rw [if_neg h3] at h
        by_cases h4 : (name == "list_active_campaigns") = true
        · rw [if_pos h4] at h
          exact branch_ok h fmtPrefix_activeCampaigns
        · rw [if_neg h4] at h
          by_cases h5 : (name == "search_campaigns") = true
          · rw [if_pos h5] at h
            exact branch_ok h fmtPrefix_search
          · rw [if_neg h5] at h
            by_cases h6 : (name == "get_campaign_details") = true
            · rw [if_pos h6] at h
              exact branch_ok h fmtPrefix_campDetails
            · rw [if_neg h6] at h
              by_cases h7 : (name == "list_insertion_orders") = true
              · rw [if_pos h7] at h
                exact branch_ok h fmtPrefix_ios
              · rw [if_neg h7] at h
                by_cases h8 : (name == "list_line_items") = true
                · rw [if_pos h8] at h
                  exact branch_ok h fmtPrefix_lis
                · rw [if_neg h8] at h
                  by_cases h9 : (name == "list_creatives") = true
                  · rw [if_pos h9] at h
                    exact branch_ok h fmtPrefix_creatives
                  · rw [if_neg h9] at h
                    by_cases h10 : (name == "list_audiences") = true
                    · rw [if_pos h10] at h
                      exact branch_ok h fmtPrefix_audiences
                    · rw [if_neg h10] at h
                      by_cases h11 : (name == "get_campaign_performance_summary") = true
                      · rw [if_pos h11] at h
                        exact branch_ok h fmtPrefix_perfSummary
                      · rw [if_neg h11] at h
                        by_cases h12 : (name == "list_saved_reports") = true
                        · rw [if_pos h12] at h
                          exact branch_ok h fmtPrefix_savedReports
                        · rw [if_neg h12] at h
                          rw [M.pure_eq] at h
                          injection h with hl hg
                          injection hl with hl
                          subst hl
                          intro t htl
                          simp only [List.mem_singleton] at htl
                          subst htl
                          refine ⟨SingleServer.mCross, by decide, ?_⟩
                          simp only [strAppend_assoc]
                          exact ⟨_, rfl⟩

/-- C10 counterexample: in the full server a successful tool call is
rendered as bare `str(result)` with no status indicator.  With a stub
service whose `queries.list()` returns an empty dict, `list_saved_reports`
succeeds and the only output text is exactly `[]` — it starts with none of
the single-file server's status markers, nor with the `Error: ` prefix
that failures receive. -/
theorem C10_counterexample :
    FullServer.handle_call_tool (Except.ok (stubSvc okd okd okd okd okd okd))
        "list_saved_reports" [] = (["[]"], ["queries.list()"])
    ∧ (SingleServer.statusMarkers.all fun m => !(m.isPrefixOf "[]")) = true
    ∧ "Error: ".isPrefixOf "[]" = false :=
  ⟨rfl, by decide, by decide⟩

/-- C10 (amended): the two server variants format outcomes differently.
In the full server (`server.py`) every failure outcome is rendered as a
single text prefixed with `Error: `, but every success outcome is the bare
`str(result)` with no status prefix.  In the single-file server
(`dv360_server.py`) every output text — success, caught failure, or
unknown tool — starts with one of the status markers (the file's literal
marker strings, which are double-encoded emoji). -/
theorem C10_status_prefix :
    (∀ (svcp : Except String Service) (name : String) (args : Args),
      (∃ e log, FullServer.handle_call_tool svcp name args = (["Error: " ++ e], log))
      ∨ (∃ v log, FullServer.handle_call_tool svcp name args = ([pyStr v], log)))
    ∧ (∀ (svcp : Except String Service) (name : String) (args : Args),
        ∀ t ∈ (SingleServer.handle_call_tool svcp name args).fst,
          ∃ m ∈ SingleServer.statusMarkers, ∃ r, t = m ++ r) := by
  constructor
  · intro svcp name args
    rcases h : runM (FullServer.dispatchComp svcp name args) with ⟨res, log⟩
    cases res with
    | ok v =>
      exact Or.inr ⟨v, log, by unfold FullServer.handle_call_tool; rw [h]⟩
    | error e =>
      exact Or.inl ⟨e, log, by unfold FullServer.handle_call_tool; rw [h]⟩
  · intro svcp name args t ht
    rcases h : runM (SingleServer.singleComp svcp name args) with ⟨res, log⟩
    cases res with
    | error e =>
      have hh : SingleServer.handle_call_tool svcp name args =
          ([SingleServer.mCross ++ " Error: " ++ e], log) := by
        unfold SingleServer.handle_call_tool
        rw [h]
      rw [hh] at ht
      simp only [List.mem_singleton] at ht
      subst ht
      refine ⟨SingleServer.mCross, by decide, ?_⟩
      simp only [strAppend_assoc]
      exact ⟨_, rfl⟩
    | ok ts =>
      have hh : SingleServer.handle_call_tool svcp name args = (ts, log) := by
        unfold SingleServer.handle_call_tool
        rw [h]
      rw [hh] at ht
      exact singleComp_ok_prefix h t ht
